import Mathlib

/-!
Verification of the result-normalization layer of the capa-sdk-demo
repository (`demo_reflex/capa_service.py` and the computed-state helpers in
`demo_reflex/state.py`).

The Python service is embedded shallowly: real numbers are modelled as `ℚ`
(all constants involved are decimal literals), Python attributes that may be
absent or `None` are modelled by the three-valued type `Attr`, and any
expression that can raise (`float(None)`, `KeyError` on an unknown analysis
mode, a raising SDK call) lives in `Except String`.  The `try/except/finally`
wrappers of `analyze_single_image` / `analyze_multi_angle` are embedded as
total functions that also report the analyzer-handle events of the call, so
that resource-release claims can be stated.
-/

/-- Value of a dynamically probed Python attribute: the attribute may be
missing (`hasattr` is false), present but `None`, or present with a numeric
value. -/
inductive Attr where
  | absent
  | pynone
  | num (v : ℚ)
deriving DecidableEq

/-- Error message produced by Python when `float(None)` is evaluated. -/
def floatNoneMsg : String := "float() argument must be a string or a number, not NoneType"

/-- Clamp into [0,1]: Python `max(0.0, min(1.0, x))` as used throughout
`capa_service.py`. -/
def clamp (x : ℚ) : ℚ := max 0 (min 1 x)

/-- Embedding of the repeated cm-preference pattern
`float(o.f_cm) if hasattr(o, f_cm) and o.f_cm != 0 else float(o.f)`.
A present-but-`None` cm attribute passes the `!= 0` test in Python and then
`float(None)` raises. -/
def cmPreferred (cm : Attr) (px : ℚ) : Except String ℚ :=
  match cm with
  | .absent => .ok px
  | .pynone => .error floatNoneMsg
  | .num c => if c = 0 then .ok px else .ok c

/-- Embedding of the units tag `"cm" if hasattr(o, f_cm) and o.f_cm != 0 else "px"`. -/
def unitTag (cm : Attr) : String :=
  match cm with
  | .absent => "px"
  | .pynone => "cm"
  | .num c => if c = 0 then "px" else "cm"

/-- The UnitReconciler of the specification, as realised by the code: the
value channel is `cmPreferred` and the unit tag is `unitTag`, both driven by
the same cm attribute. -/
def reconcile (cm : Attr) (px : ℚ) : Except String (ℚ × String) := do
  let v ← cmPreferred cm px
  pure (v, unitTag cm)

/-- Embedding of `float(o.f) if hasattr(o, f) else 0`. -/
def defFloat (a : Attr) : Except String ℚ :=
  match a with
  | .absent => .ok 0
  | .pynone => .error floatNoneMsg
  | .num v => .ok v

/-- Embedding of `float(o.f) if hasattr(o, f) else None`. -/
def optFloat (a : Attr) : Except String (Option ℚ) :=
  match a with
  | .absent => .ok none
  | .pynone => .error floatNoneMsg
  | .num v => .ok (some v)

/-- Embedding of `float(getattr(o, f, d))`. -/
def getattrFloat (a : Attr) (d : ℚ) : Except String ℚ :=
  match a with
  | .absent => .ok d
  | .pynone => .error floatNoneMsg
  | .num v => .ok v

/-- Insertion into a Python dict modelled as an insertion-ordered association
list: an existing key is overwritten in place, a fresh key is appended. -/
def dictInsert {α : Type} (m : List (String × α)) (k : String) (v : α) : List (String × α) :=
  if m.any (fun p => p.1 = k) then
    m.map (fun p => if p.1 = k then (k, v) else p)
  else m ++ [(k, v)]

/-- Normalize an optional sub-result: a falsy module result contributes no
sub-record, a present one is converted (embedding of the repeated
`if result.x_result:` guards). -/
def optSub {A B : Type} (f : A → Except String B) (o : Option A) :
    Except String (Option B) :=
  match o with
  | some a => do
      let d ← f a
      pure (some d)
  | none => pure none

/-! ## Raw SDK result model (single image)

Only the attributes that `capa_service.py` actually reads are modelled.
Attributes the code reads unconditionally are plain fields; attributes read
behind `hasattr` / `getattr` are `Attr` or `Option`. -/

/-- Raw WD module result (`result.wd_result`). -/
structure WDRaw where
  wd_value : ℚ
  wd_value_cm : Attr
  primary_classification : String
  bizygomatic_width : ℚ
  bizygomatic_width_cm : Attr
  bigonial_width : ℚ
  bigonial_width_cm : Attr
  measurement_confidence : ℚ
  wd_ratio_q : Attr
  normalized_wd_value : Attr
  demographic_percentile : Attr
  robust_classification : Option String
deriving DecidableEq

/-- Raw forehead geometry (`fh.forehead_geometry`). -/
structure FhGeomRaw where
  slant_angle_degrees : ℚ
  forehead_height : ℚ
  forehead_width : Attr
  forehead_curvature : Attr
  frontal_prominence : Attr
  temporal_width : Attr
  width_height_ratio_q : Attr
deriving DecidableEq

/-- Raw forehead module result (`result.forehead_result`).  The optional
neuroscience / impulsivity blocks are built from `getattr` calls that cannot
raise and are not referenced by any claim, so they are not modelled. -/
structure FhRaw where
  forehead_geometry : FhGeomRaw
  impulsiveness_level : String
  measurement_confidence : ℚ
deriving DecidableEq

/-- Raw facial proportions (`morph.facial_proportions`). -/
structure PropsRaw where
  facial_index : ℚ
  facial_width_height_ratio_q : ℚ
  upper_face_ratio_q : Attr
  middle_face_ratio_q : Attr
  lower_face_ratio_q : Attr
  bizygomatic_width : Attr
  bigonial_width : Attr
  total_face_height : Attr
  facial_index_attr : Attr
  nasal_width : Attr
  mouth_width : Attr
deriving DecidableEq

/-- Raw morphology module result (`result.morphology_result`).  The optional
shape-probability and symmetry blocks are not referenced by any claim and are
not modelled. -/
structure MorphRaw where
  primary_shape : String
  facial_proportions : PropsRaw
  measurement_confidence : ℚ
  shape_confidence : Attr
deriving DecidableEq

/-- Raw single canon object (an element of `neo.canons`). -/
structure CanonRaw where
  canon_name : Option String
  measured_ratio_q : Attr
  deviation_percentage : Attr
  is_valid : Option Bool
  confidence : Attr
  validity_score : Attr
  expected_ratio_q : Attr
  acceptable_deviation : Attr
deriving DecidableEq

/-- Raw neoclassical module result (`result.neoclassical_result`). -/
structure NeoRaw where
  overall_validity_score : Attr
  beauty_score : Attr
  proportion_balance : Attr
  confidence : Attr
  canons : Option (List CanonRaw)
deriving DecidableEq

/-- Raw processing metadata (`result.processing_metadata`). -/
structure MetaRaw where
  overall_confidence : ℚ
deriving DecidableEq

/-- One raw SDK analysis result for a single image.  `none` sub-results model
Python falsy module results. -/
structure RawResult where
  wd_result : Option WDRaw
  forehead_result : Option FhRaw
  morphology_result : Option MorphRaw
  neoclassical_result : Option NeoRaw
  processing_metadata : Option MetaRaw
deriving DecidableEq

/-! ## Normalized record model (single image) -/

/-- The `wd_dict` built by `analyze_single_image`. -/
structure WdDict where
  wd_value : ℚ
  wd_value_px : ℚ
  classification : String
  bizygomatic_width : ℚ
  bizygomatic_width_px : ℚ
  bigonial_width : ℚ
  bigonial_width_px : ℚ
  confidence : ℚ
  wd_ratio_q : Option ℚ
  normalized_wd_value : Option ℚ
  demographic_percentile : Option ℚ
  robust_classification : Option String
  units : String
  evidence_level : String
  paper_reference : String
deriving DecidableEq

/-- The geometry sub-dict of the single-image forehead record. -/
structure FhGeomDict where
  slant_angle : ℚ
  forehead_height : ℚ
  forehead_width : ℚ
  curvature : ℚ
  frontal_prominence : ℚ
  temporal_width : ℚ
  width_height_ratio_q : ℚ
deriving DecidableEq

/-- The `fh_dict` built by `analyze_single_image`. -/
structure FhDict where
  slant_angle : ℚ
  forehead_height : ℚ
  impulsiveness_level : String
  confidence : ℚ
  geometry : FhGeomDict
  evidence_level : String
  paper_reference : String
deriving DecidableEq

/-- The proportions sub-dict of the single-image morphology record. -/
structure PropsDict where
  upper_face_ratio_q : ℚ
  middle_face_ratio_q : ℚ
  lower_face_ratio_q : ℚ
  bizygomatic_width : ℚ
  bigonial_width : ℚ
  facial_width : ℚ
  facial_height : ℚ
  facial_index : ℚ
  nasal_width : ℚ
  mouth_width : ℚ
deriving DecidableEq

/-- The `morph_dict` built by `analyze_single_image`. -/
structure MorphDict where
  face_shape : String
  facial_index : ℚ
  width_height_ratio_q : ℚ
  confidence : ℚ
  shape_confidence : Option ℚ
  proportions : PropsDict
deriving DecidableEq

/-- One canon entry of the single-image path (four keys, `within_range`
copied from the SDK `is_valid` flag). -/
structure CanonEntryS where
  measured_value : ℚ
  deviation : ℚ
  within_range : Bool
  confidence : ℚ
deriving DecidableEq

/-- The `neo_dict` built by `analyze_single_image`.  `canon_measurements` is
`none` when the `canons` attribute is missing or falsy (the key is then not
added to the Python dict). -/
structure NeoDictS where
  overall_score : ℚ
  beauty_score : Option ℚ
  proportion_balance : Option ℚ
  confidence : ℚ
  canon_measurements : Option (List (String × CanonEntryS))
deriving DecidableEq

/-- The metadata dict of the single-image path. -/
structure MetaDict where
  overall_confidence : ℚ
  processing_time : ℚ
  analysis_mode : String
  modules_wd : Bool
  modules_forehead : Bool
  modules_morphology : Bool
  modules_neoclassical : Bool
deriving DecidableEq

/-- The `results_dict` of a successful `analyze_single_image` call. -/
structure ResultsDict where
  success : Bool
  wd_result : Option WdDict
  forehead_result : Option FhDict
  morphology_result : Option MorphDict
  neoclassical_result : Option NeoDictS
  metadata : MetaDict
deriving DecidableEq

/-! ## Record construction (single image), lines 103-360 of capa_service.py -/

/-- Build the `wd_dict` (lines 113-166).  The personality-profile,
secondary-traits and z-score blocks are `getattr`-with-default extractions
not referenced by any claim and are omitted. -/
def mkWdDict (wd : WDRaw) : Except String WdDict := do
  let v ← cmPreferred wd.wd_value_cm wd.wd_value
  let bz ← cmPreferred wd.bizygomatic_width_cm wd.bizygomatic_width
  let bg ← cmPreferred wd.bigonial_width_cm wd.bigonial_width
  let wr ← optFloat wd.wd_ratio_q
  let nw ← optFloat wd.normalized_wd_value
  let dp ← optFloat wd.demographic_percentile
  pure {
    wd_value := v
    wd_value_px := wd.wd_value
    classification := wd.primary_classification
    bizygomatic_width := bz
    bizygomatic_width_px := wd.bizygomatic_width
    bigonial_width := bg
    bigonial_width_px := wd.bigonial_width
    confidence := clamp wd.measurement_confidence
    wd_ratio_q := wr
    normalized_wd_value := nw
    demographic_percentile := dp
    robust_classification := wd.robust_classification
    units := unitTag wd.wd_value_cm
    evidence_level := "validated"
    paper_reference := "Lefevre et al. (2012) - fWHR correlations" }

/-- Build the `fh_dict` (lines 169-241).  The optional neuroscience /
impulsivity / confidence-interval blocks use raise-free `getattr` defaults
and are omitted. -/
def mkFhDict (fh : FhRaw) : Except String FhDict := do
  let geom := fh.forehead_geometry
  let fw ← defFloat geom.forehead_width
  let cu ← defFloat geom.forehead_curvature
  let fp ← defFloat geom.frontal_prominence
  let tw ← defFloat geom.temporal_width
  let whr ← defFloat geom.width_height_ratio_q
  pure {
    slant_angle := geom.slant_angle_degrees
    forehead_height := geom.forehead_height
    impulsiveness_level := fh.impulsiveness_level
    confidence := fh.measurement_confidence
    geometry := {
      slant_angle := geom.slant_angle_degrees
      forehead_height := geom.forehead_height
      forehead_width := fw
      curvature := cu
      frontal_prominence := fp
      temporal_width := tw
      width_height_ratio_q := whr }
    evidence_level := "validated"
    paper_reference := "Guerrero-Apolo et al. (2018) - FID-BIS11 correlation" }

/-- Build the `morph_dict` (lines 244-298).  The shape-probability and
symmetry blocks are not referenced by any claim and are omitted. -/
def mkMorphDict (morph : MorphRaw) : Except String MorphDict := do
  let props := morph.facial_proportions
  let sc ← optFloat morph.shape_confidence
  let ur ← defFloat props.upper_face_ratio_q
  let mr ← defFloat props.middle_face_ratio_q
  let lr ← defFloat props.lower_face_ratio_q
  let bz ← defFloat props.bizygomatic_width
  let bg ← defFloat props.bigonial_width
  let fhgt ← defFloat props.total_face_height
  let fi ← defFloat props.facial_index_attr
  let nwdt ← defFloat props.nasal_width
  let mwdt ← defFloat props.mouth_width
  pure {
    face_shape := morph.primary_shape
    facial_index := props.facial_index
    width_height_ratio_q := props.facial_width_height_ratio_q
    confidence := morph.measurement_confidence
    shape_confidence := sc
    proportions := {
      upper_face_ratio_q := ur
      middle_face_ratio_q := mr
      lower_face_ratio_q := lr
      bizygomatic_width := bz
      bigonial_width := bg
      facial_width := bz
      facial_height := fhgt
      facial_index := fi
      nasal_width := nwdt
      mouth_width := mwdt } }

/-- Default canon name `getattr(canon, 'canon_name', f'Canon N')`. -/
def canonName (c : CanonRaw) (count : Nat) : String :=
  c.canon_name.getD ("Canon " ++ toString (count + 1))

/-- One canon entry of the single-image path (lines 313-320): `within_range`
is the SDK `is_valid` flag (`False` when the attribute is missing). -/
def mkCanonEntryS (c : CanonRaw) : Except String CanonEntryS := do
  let measured ← getattrFloat c.measured_ratio_q 0
  let dev ← defFloat c.deviation_percentage
  let conf ← getattrFloat c.confidence (4/5)
  pure {
    measured_value := measured
    deviation := dev
    within_range := c.is_valid.getD false
    confidence := conf }

/-- Build the single-image canon dictionary by folding over `neo.canons`. -/
def buildCanonsS (cs : List CanonRaw) : Except String (List (String × CanonEntryS)) :=
  cs.foldlM (fun m c => do
    let e ← mkCanonEntryS c
    pure (dictInsert m (canonName c m.length) e)) []

/-- The `canon_measurements` key is only added when the `canons` attribute
exists and is truthy (a missing attribute or an empty list contributes no
key): embedding of `if hasattr(neo, 'canons') and neo.canons:`. -/
def canonsOptS (canons : Option (List CanonRaw)) :
    Except String (Option (List (String × CanonEntryS))) :=
  match canons with
  | some (c :: cs) => do
      let l ← buildCanonsS (c :: cs)
      pure (some l)
  | _ => pure none

/-- Build the `neo_dict` of the single-image path (lines 301-327). -/
def mkNeoDictS (neo : NeoRaw) : Except String NeoDictS := do
  let os ← defFloat neo.overall_validity_score
  let bs ← optFloat neo.beauty_score
  let pb ← optFloat neo.proportion_balance
  let conf ← defFloat neo.confidence
  let cm ← canonsOptS neo.canons
  pure {
    overall_score := os
    beauty_score := bs
    proportion_balance := pb
    confidence := conf
    canon_measurements := cm }

/-- Build the metadata dict (lines 330-358): the overall confidence is
clamped when processing metadata is present, and defaults to 0 otherwise. -/
def mkMeta (pm : Option MetaRaw) (mode : String) (ew ef em en : Bool) (elapsed : ℚ) : MetaDict :=
  match pm with
  | some m => {
      overall_confidence := clamp m.overall_confidence
      processing_time := elapsed
      analysis_mode := mode
      modules_wd := ew
      modules_forehead := ef
      modules_morphology := em
      modules_neoclassical := en }
  | none => {
      overall_confidence := 0
      processing_time := elapsed
      analysis_mode := mode
      modules_wd := ew
      modules_forehead := ef
      modules_morphology := em
      modules_neoclassical := en }

/-- Build the full `results_dict` from a non-null raw result
(lines 103-360). -/
def buildResults (raw : RawResult) (mode : String) (ew ef em en : Bool) (elapsed : ℚ) :
    Except String ResultsDict := do
  let wd ← optSub mkWdDict raw.wd_result
  let fh ← optSub mkFhDict raw.forehead_result
  let morph ← optSub mkMorphDict raw.morphology_result
  let neo ← optSub mkNeoDictS raw.neoclassical_result
  pure {
    success := true
    wd_result := wd
    forehead_result := fh
    morphology_result := morph
    neoclassical_result := neo
    metadata := mkMeta raw.processing_metadata mode ew ef em en elapsed }

/-! ## The analyze_single_image wrapper (lines 53-371)

The wrapper is embedded as a total function over an abstract SDK behaviour.
Besides the output record it reports the analyzer-handle events of the call
(acquisition, the analyze call, shutdown) and whether the handle is still
open when the call returns, so that the resource-release contract can be
stated. -/

/-- Analyzer-handle events of one service call. -/
inductive Ev where
  | acquire
  | analyze
  | shutdown
deriving DecidableEq

/-- Behaviour of the external analyze call: it either raises or returns a
raw result (possibly `None`). -/
inductive SdkAnalyze where
  | raises (msg : String)
  | returns (raw : Option RawResult)
deriving DecidableEq

/-- Output of `analyze_single_image`: the canonical no-face record (exactly
the keys `success` and `error`), a populated results dict, or the
caught-exception record (keys `success`, `error` and `traceback`). -/
inductive SingleOutput where
  | noFace
  | ok (r : ResultsDict)
  | err (msg : String) (trace : String)
deriving DecidableEq

/-- Top-level keys of the returned Python dictionary. -/
def outputKeys : SingleOutput → List String
  | .noFace => ["success", "error"]
  | .ok _ => ["success", "wd_result", "forehead_result", "morphology_result",
              "neoclassical_result", "metadata"]
  | .err _ _ => ["success", "error", "traceback"]

/-- Handle events and final handle state of one call. -/
structure RunTrace where
  events : List Ev
  handleOpen : Bool
deriving DecidableEq

/-- The five members of the SDK `AnalysisMode` enum; an unknown mode string
makes `AnalysisMode[mode]` raise a `KeyError` inside the `try` block.
Modelled from the spec: the enum itself lives in the excluded external SDK;
the spec names the modes FAST, STANDARD, THOROUGH, SCIENTIFIC, RESEARCH. -/
def validMode (m : String) : Bool :=
  m = "FAST" || m = "STANDARD" || m = "THOROUGH" || m = "SCIENTIFIC" || m = "RESEARCH"

/-- Diagnostic string standing for `traceback.format_exc()`. -/
def tracebackText : String := "Traceback (most recent call last) ..."

/-- Message of the `KeyError` raised by `AnalysisMode[mode]`. -/
def keyErrorMsg (m : String) : String := "KeyError " ++ m

/-- The `try` body of `analyze_single_image`: outcome, events so far, and
whether the analyzer handle was acquired (is open) when the body ends. -/
def singleBody (mode : String) (sdk : SdkAnalyze) (ew ef em en : Bool) (elapsed : ℚ) :
    SingleOutput × List Ev × Bool :=
  if validMode mode then
    match sdk with
    | .raises m =>
        (.err ("Error during analysis: " ++ m) tracebackText, [.acquire, .analyze], true)
    | .returns none => (.noFace, [.acquire, .analyze], true)
    | .returns (some raw) =>
        match buildResults raw mode ew ef em en elapsed with
        | .ok r => (.ok r, [.acquire, .analyze], true)
        | .error m =>
            (.err ("Error during analysis: " ++ m) tracebackText, [.acquire, .analyze], true)
  else
    (.err ("Error during analysis: " ++ keyErrorMsg mode) tracebackText, [], false)

/-- The `finally` clause (lines 368-371): shut the analyzer down when it is
open, and clear the handle. -/
def finallyShutdown (b : SingleOutput × List Ev × Bool) : SingleOutput × RunTrace :=
  match b with
  | (out, evs, opened) =>
      if opened then (out, { events := evs ++ [.shutdown], handleOpen := false })
      else (out, { events := evs, handleOpen := opened })

/-- Embedding of `CapaService.analyze_single_image` (lines 53-371): the
`try` body runs up to the first raising step, the `except` clause converts a
raised message into the error record, and the `finally` clause shuts the
analyzer down whenever it was acquired. -/
def analyze_single_image (mode : String) (sdk : SdkAnalyze)
    (ew ef em en : Bool) (elapsed : ℚ) : SingleOutput × RunTrace :=
  finallyShutdown (singleBody mode sdk ew ef em en elapsed)

/-! ## Multi-angle path (lines 373-613) -/

/-- One per-angle raw analysis inside a multi-angle result. -/
structure AngleRaw where
  wd_result : Option WDRaw
  forehead_result : Option FhRaw
  morphology_result : Option MorphRaw
  neoclassical_result : Option NeoRaw
deriving DecidableEq

/-- Raw multi-angle carrier returned by `analyze_multiple_angles`. -/
structure MultiRaw where
  angle_results : List (String × Option AngleRaw)
  combined_wd_value : Option ℚ
  combined_forehead_angle : Option ℚ
  combined_face_shape : Option String
  combined_confidence : Option ℚ
deriving DecidableEq

/-- Embedding of `float(x) if x else None`: Python truthiness maps both
`None` and `0` to `None`. -/
def truthyFloat (x : Option ℚ) : Option ℚ :=
  match x with
  | none => none
  | some v => if v = 0 then none else some v

/-- Multi-angle WD record (lines 444-454): confidence clamped, no extra
demographic fields. -/
structure WdDictM where
  wd_value : ℚ
  wd_value_px : ℚ
  classification : String
  bizygomatic_width : ℚ
  bizygomatic_width_px : ℚ
  bigonial_width : ℚ
  bigonial_width_px : ℚ
  confidence : ℚ
  units : String
deriving DecidableEq

/-- Multi-angle forehead geometry sub-dict (lines 486-493). -/
structure FhGeomDictM where
  slant_angle : ℚ
  forehead_height : ℚ
  forehead_width : ℚ
  curvature : ℚ
  frontal_prominence : ℚ
  width_height_ratio_q : ℚ
deriving DecidableEq

/-- Multi-angle forehead record (lines 477-493). -/
structure FhDictM where
  slant_angle : ℚ
  forehead_height : ℚ
  impulsiveness_level : String
  confidence : ℚ
  geometry : FhGeomDictM
deriving DecidableEq

/-- Multi-angle morphology proportions (lines 543-549). -/
structure PropsDictM where
  upper_face_ratio_q : ℚ
  middle_face_ratio_q : ℚ
  lower_face_ratio_q : ℚ
  facial_width : ℚ
  facial_height : ℚ
deriving DecidableEq

/-- Multi-angle morphology record (lines 534-549). -/
structure MorphDictM where
  face_shape : String
  facial_index : ℚ
  width_height_ratio_q : ℚ
  confidence : ℚ
  proportions : PropsDictM
deriving DecidableEq

/-- One canon entry of the multi-angle path (lines 582-590): `within_range`
is recomputed from the uniform 10 percent threshold. -/
structure CanonEntryM where
  measured_value : ℚ
  deviation : ℚ
  within_range : Bool
  confidence : ℚ
  validity_score : Option ℚ
  expected_ratio_q : Option ℚ
  acceptable_deviation : Option ℚ
deriving DecidableEq

/-- Multi-angle neoclassical record (lines 554-593). -/
structure NeoDictM where
  overall_score : ℚ
  beauty_score : Option ℚ
  proportion_balance : Option ℚ
  confidence : ℚ
  canon_measurements : Option (List (String × CanonEntryM))
deriving DecidableEq

/-- The uniform deviation threshold of the multi-angle canon policy
(line 569). -/
def DEVIATION_THRESHOLD : ℚ := 10

/-- One canon entry of the multi-angle path (lines 571-590): the deviation
is extracted first, `within_range` is `abs(deviation) <= 10.0`, and the SDK
validity score is kept only for reference. -/
def mkCanonEntryM (c : CanonRaw) : Except String CanonEntryM := do
  let dev ← defFloat c.deviation_percentage
  let vs ← optFloat c.validity_score
  let measured ← getattrFloat c.measured_ratio_q 0
  let conf ← getattrFloat c.confidence (4/5)
  let er ← optFloat c.expected_ratio_q
  let ad ← optFloat c.acceptable_deviation
  pure {
    measured_value := measured
    deviation := dev
    within_range := decide (|dev| ≤ DEVIATION_THRESHOLD)
    confidence := conf
    validity_score := vs
    expected_ratio_q := er
    acceptable_deviation := ad }

/-- Build the multi-angle canon dictionary by folding over `neo.canons`. -/
def buildCanonsM (cs : List CanonRaw) : Except String (List (String × CanonEntryM)) :=
  cs.foldlM (fun m c => do
    let e ← mkCanonEntryM c
    pure (dictInsert m (canonName c m.length) e)) []

/-- Truthiness guard of the multi-angle `canon_measurements` key
(line 562). -/
def canonsOptM (canons : Option (List CanonRaw)) :
    Except String (Option (List (String × CanonEntryM))) :=
  match canons with
  | some (c :: cs) => do
      let l ← buildCanonsM (c :: cs)
      pure (some l)
  | _ => pure none

/-- Build the multi-angle `neo_dict` (lines 554-593). -/
def mkNeoDictM (neo : NeoRaw) : Except String NeoDictM := do
  let os ← defFloat neo.overall_validity_score
  let bs ← optFloat neo.beauty_score
  let pb ← optFloat neo.proportion_balance
  let conf ← defFloat neo.confidence
  let cm ← canonsOptM neo.canons
  pure {
    overall_score := os
    beauty_score := bs
    proportion_balance := pb
    confidence := conf
    canon_measurements := cm }

/-- Build the multi-angle WD record (lines 438-454). -/
def mkWdDictM (wd : WDRaw) : Except String WdDictM := do
  let v ← cmPreferred wd.wd_value_cm wd.wd_value
  let bz ← cmPreferred wd.bizygomatic_width_cm wd.bizygomatic_width
  let bg ← cmPreferred wd.bigonial_width_cm wd.bigonial_width
  pure {
    wd_value := v
    wd_value_px := wd.wd_value
    classification := wd.primary_classification
    bizygomatic_width := bz
    bizygomatic_width_px := wd.bizygomatic_width
    bigonial_width := bg
    bigonial_width_px := wd.bigonial_width
    confidence := clamp wd.measurement_confidence
    units := unitTag wd.wd_value_cm }

/-- Width-height ratio of the multi-angle forehead geometry (line 492):
`float(geom.forehead_width / geom.forehead_height) if hasattr(...) and
geom.forehead_height > 0 else 0`; the condition is evaluated before the
division, so a present-but-`None` width raises only when the height is
positive. -/
def mkWhr (fw : Attr) (h : ℚ) : Except String ℚ :=
  match fw with
  | .absent => .ok 0
  | .pynone => if 0 < h then .error floatNoneMsg else .ok 0
  | .num v => if 0 < h then .ok (v / h) else .ok 0

/-- Build the multi-angle forehead record (lines 471-525); the dynamically
probed neurotransmitter / cognitive / neuroscience blocks are raise-free
`getattr` extractions not referenced by any claim and are omitted. -/
def mkFhDictM (fh : FhRaw) : Except String FhDictM := do
  let geom := fh.forehead_geometry
  let fw ← defFloat geom.forehead_width
  let cu ← defFloat geom.forehead_curvature
  let fp ← defFloat geom.frontal_prominence
  let whr ← mkWhr geom.forehead_width geom.forehead_height
  pure {
    slant_angle := geom.slant_angle_degrees
    forehead_height := geom.forehead_height
    impulsiveness_level := fh.impulsiveness_level
    confidence := clamp fh.measurement_confidence
    geometry := {
      slant_angle := geom.slant_angle_degrees
      forehead_height := geom.forehead_height
      forehead_width := fw
      curvature := cu
      frontal_prominence := fp
      width_height_ratio_q := whr } }

/-- Build the multi-angle morphology record (lines 528-549). -/
def mkMorphDictM (morph : MorphRaw) : Except String MorphDictM := do
  let props := morph.facial_proportions
  let ur ← defFloat props.upper_face_ratio_q
  let mr ← defFloat props.middle_face_ratio_q
  let lr ← defFloat props.lower_face_ratio_q
  let fwid ← defFloat props.bizygomatic_width
  let fhgt ← defFloat props.total_face_height
  pure {
    face_shape := morph.primary_shape
    facial_index := props.facial_index
    width_height_ratio_q := props.facial_width_height_ratio_q
    confidence := clamp morph.measurement_confidence
    proportions := {
      upper_face_ratio_q := ur
      middle_face_ratio_q := mr
      lower_face_ratio_q := lr
      facial_width := fwid
      facial_height := fhgt } }

/-- The `results_dict` of a successful `analyze_multi_angle` call.  The
`wd_result` .. `neoclassical_result` keys are only added by the per-angle
loop, hence optional. -/
structure MultiResults where
  success : Bool
  subject_id : String
  num_angles : Nat
  combined_wd_value : Option ℚ
  combined_forehead_angle : Option ℚ
  combined_face_shape : Option String
  combined_confidence : Option ℚ
  angle_results : List (String × String)
  processing_time : ℚ
  wd_result : Option WdDictM
  forehead_result : Option FhDictM
  morphology_result : Option MorphDictM
  neoclassical_result : Option NeoDictM
deriving DecidableEq

/-- WD extraction of the per-angle loop (lines 438-468): only a present
`wd_result` on the `frontal` angle updates the record. -/
def stepWd (angle : String) (ar : AngleRaw) (acc : MultiResults) :
    Except String MultiResults :=
  match ar.wd_result, angle == "frontal" with
  | some w, true => do
      let d ← mkWdDictM w
      pure { acc with wd_result := some d }
  | _, _ => pure acc

/-- Forehead extraction of the per-angle loop (lines 471-525): only a
present `forehead_result` on the `profile` angle updates the record. -/
def stepFh (angle : String) (ar : AngleRaw) (acc : MultiResults) :
    Except String MultiResults :=
  match ar.forehead_result, angle == "profile" with
  | some f, true => do
      let d ← mkFhDictM f
      pure { acc with forehead_result := some d }
  | _, _ => pure acc

/-- Morphology extraction of the per-angle loop (lines 528-549). -/
def stepMorph (angle : String) (ar : AngleRaw) (acc : MultiResults) :
    Except String MultiResults :=
  match ar.morphology_result, angle == "frontal" with
  | some m, true => do
      let d ← mkMorphDictM m
      pure { acc with morphology_result := some d }
  | _, _ => pure acc

/-- Neoclassical extraction of the per-angle loop (lines 552-593). -/
def stepNeo (angle : String) (ar : AngleRaw) (acc : MultiResults) :
    Except String MultiResults :=
  match ar.neoclassical_result, angle == "frontal" with
  | some n, true => do
      let d ← mkNeoDictM n
      pure { acc with neoclassical_result := some d }
  | _, _ => pure acc

/-- Process one angle of the loop of lines 433-597: a falsy angle result is
recorded as Failed, a present one as Success after extracting the
angle-specific sub-records (wd / morphology / canons from `frontal`,
forehead from `profile`). -/
def processAngle (acc : MultiResults) (p : String × Option AngleRaw) :
    Except String MultiResults :=
  match p.2 with
  | none => .ok { acc with angle_results := dictInsert acc.angle_results p.1 ("Failed") }
  | some ar => do
      let acc1 ← stepWd p.1 ar acc
      let acc2 ← stepFh p.1 ar acc1
      let acc3 ← stepMorph p.1 ar acc2
      let acc4 ← stepNeo p.1 ar acc3
      pure { acc4 with angle_results := dictInsert acc4.angle_results p.1 ("Success") }

/-- Initial multi-angle `results_dict` (lines 417-430): the combined fields
use Python truthiness, the combined confidence is clamped when truthy, and
`success` is `true`. -/
def initMulti (raw : MultiRaw) (subject_id : String) (elapsed : ℚ) : MultiResults := {
  success := true
  subject_id := subject_id
  num_angles := raw.angle_results.length
  combined_wd_value := truthyFloat raw.combined_wd_value
  combined_forehead_angle := truthyFloat raw.combined_forehead_angle
  combined_face_shape := raw.combined_face_shape
  combined_confidence := (truthyFloat raw.combined_confidence).map clamp
  angle_results := []
  processing_time := elapsed
  wd_result := none
  forehead_result := none
  morphology_result := none
  neoclassical_result := none }

/-- Build the multi-angle `results_dict` from the raw carrier
(lines 411-600): the initial record followed by the per-angle loop that
fills statuses and sub-records. -/
def buildMulti (raw : MultiRaw) (subject_id : String) (elapsed : ℚ) :
    Except String MultiResults :=
  raw.angle_results.foldlM processAngle (initMulti raw subject_id elapsed)

/-- Behaviour of the external multi-angle analyze call. -/
inductive MultiSdk where
  | raises (msg : String)
  | returns (raw : MultiRaw)
deriving DecidableEq

/-- Output of `analyze_multi_angle`. -/
inductive MultiOutput where
  | ok (r : MultiResults)
  | err (msg : String) (trace : String)
deriving DecidableEq

/-- The `try` body of `analyze_multi_angle`. -/
def multiBody (subject_id : String) (sdk : MultiSdk) (elapsed : ℚ) :
    MultiOutput × List Ev × Bool :=
  match sdk with
  | .raises m =>
      (.err ("Error during multi-angle analysis: " ++ m) tracebackText,
       [.acquire, .analyze], true)
  | .returns raw =>
      match buildMulti raw subject_id elapsed with
      | .ok r => (.ok r, [.acquire, .analyze], true)
      | .error m =>
          (.err ("Error during multi-angle analysis: " ++ m) tracebackText,
           [.acquire, .analyze], true)

/-- The `finally` clause of the multi-angle path (lines 610-613). -/
def finallyShutdownM (b : MultiOutput × List Ev × Bool) : MultiOutput × RunTrace :=
  match b with
  | (out, evs, opened) =>
      if opened then (out, { events := evs ++ [.shutdown], handleOpen := false })
      else (out, { events := evs, handleOpen := opened })

/-- Embedding of `CapaService.analyze_multi_angle` (lines 373-613) with the
same try / except / finally discipline as the single-image wrapper. -/
def analyze_multi_angle (subject_id : String) (sdk : MultiSdk) (elapsed : ℚ) :
    MultiOutput × RunTrace :=
  finallyShutdownM (multiBody subject_id sdk elapsed)

/-! ## The analyze_wd_only record (lines 615-656) -/

/-- The WD record of `analyze_wd_only` (lines 626-638): same cm-preference
pattern per field, units tag keyed on the wd cm attribute, confidence stored
verbatim (no clamp on this path). -/
structure WdOnlyDict where
  wd_value : ℚ
  wd_value_px : ℚ
  bizygomatic_width : ℚ
  bizygomatic_width_px : ℚ
  bigonial_width : ℚ
  bigonial_width_px : ℚ
  classification : String
  confidence : ℚ
  units : String
deriving DecidableEq

/-- Build the `analyze_wd_only` record (lines 626-638). -/
def mkWdOnlyDict (wd : WDRaw) : Except String WdOnlyDict := do
  let v ← cmPreferred wd.wd_value_cm wd.wd_value
  let bz ← cmPreferred wd.bizygomatic_width_cm wd.bizygomatic_width
  let bg ← cmPreferred wd.bigonial_width_cm wd.bigonial_width
  pure {
    wd_value := v
    wd_value_px := wd.wd_value
    bizygomatic_width := bz
    bizygomatic_width_px := wd.bizygomatic_width
    bigonial_width := bg
    bigonial_width_px := wd.bigonial_width
    classification := wd.primary_classification
    confidence := wd.measurement_confidence
    units := unitTag wd.wd_value_cm }

/-! ## DerivedView helper from state.py -/

/-- A value fed to `DemoState._trait_to_numeric`: a number, a string, or
Python `None`. -/
inductive TraitVal where
  | num (v : ℚ)
  | str (s : String)
  | pynone
deriving DecidableEq

/-- The text-to-numeric trait table of `_trait_to_numeric`
(state.py lines 790-793). -/
def traitMap : List (String × ℚ) :=
  [("Very High", 9/10), ("High", 7/10), ("Moderate", 1/2),
   ("Low", 3/10), ("Very Low", 1/10), ("N/A", 0)]

/-- Embedding of `DemoState._trait_to_numeric` (state.py lines 786-794):
numeric input is clamped by `min(1.0, max(0.0, x))`; any other input is
converted with `str(...)` and looked up in the trait table with default 0.5.
Python renders `str(None)` as the string None, which is not in the table. -/
def traitToNumeric (v : TraitVal) : ℚ :=
  match v with
  | .num x => min 1 (max 0 x)
  | .str s => ((traitMap.lookup s).getD (1/2))
  | .pynone => ((traitMap.lookup "None").getD (1/2))

/-! ## Properties, projections and concrete inputs used by the claims -/

/-- The canon property of the multi-angle path: every stored entry's
`within_range` flag agrees with the uniform threshold on its stored
deviation. -/
def ndCanonProp (nd : NeoDictM) : Prop :=
  ∀ l, nd.canon_measurements = some l →
    ∀ p ∈ l, p.2.within_range = decide (|p.2.deviation| ≤ DEVIATION_THRESHOLD)

/-- Status written for one angle by the per-angle loop. -/
def statusOf (o : Option AngleRaw) : String :=
  if o.isSome then "Success" else "Failed"


/-- Within-range flags of the canon entries of a single-image output. -/
def singleWithinFlags (o : SingleOutput) : List Bool :=
  match o with
  | .ok r =>
      match r.neoclassical_result with
      | some nd =>
          match nd.canon_measurements with
          | some l => l.map (fun p => p.2.within_range)
          | none => []
      | none => []
  | _ => []

/-- Stored deviations of the canon entries of a single-image output. -/
def singleCanonDevs (o : SingleOutput) : List ℚ :=
  match o with
  | .ok r =>
      match r.neoclassical_result with
      | some nd =>
          match nd.canon_measurements with
          | some l => l.map (fun p => p.2.deviation)
          | none => []
      | none => []
  | _ => []

/-- Stored forehead confidence of a single-image output. -/
def singleFhConf (o : SingleOutput) : Option ℚ :=
  match o with
  | .ok r => r.forehead_result.map (fun d => d.confidence)
  | _ => none

/-- Stored combined confidence of a multi-angle record construction. -/
def multiCombConf (o : Except String MultiResults) : Option (Option ℚ) :=
  match o with
  | .ok r => some r.combined_confidence
  | _ => none

/-- Raw single-image result whose only module output is a neoclassical
record with one canon: deviation -38.6 percent, SDK flag `is_valid = True`. -/
def rawC1 : RawResult := {
  wd_result := none
  forehead_result := none
  morphology_result := none
  neoclassical_result := some {
    overall_validity_score := Attr.num (4/5)
    beauty_score := Attr.absent
    proportion_balance := Attr.absent
    confidence := Attr.num (9/10)
    canons := some [{
      canon_name := some "canon_1"
      measured_ratio_q := Attr.num 1
      deviation_percentage := Attr.num (-193/5)
      is_valid := some true
      confidence := Attr.num (9/10)
      validity_score := Attr.absent
      expected_ratio_q := Attr.absent
      acceptable_deviation := Attr.absent }] }
  processing_metadata := none }

/-- Raw single-image result whose forehead module reports the out-of-range
confidence 1.25. -/
def rawC2 : RawResult := {
  wd_result := none
  forehead_result := some {
    forehead_geometry := {
      slant_angle_degrees := 15
      forehead_height := 50
      forehead_width := Attr.absent
      forehead_curvature := Attr.absent
      frontal_prominence := Attr.absent
      temporal_width := Attr.absent
      width_height_ratio_q := Attr.absent }
    impulsiveness_level := "moderate"
    measurement_confidence := 5/4 }
  morphology_result := none
  neoclassical_result := none
  processing_metadata := none }

/-- Raw WD result calibrated for the WD value (4 cm) but with a zero
(uncalibrated) bizygomatic cm channel and pixel widths. -/
def wdC10 : WDRaw := {
  wd_value := 726/5
  wd_value_cm := Attr.num 4
  primary_classification := "wider_jaw"
  bizygomatic_width := 140
  bizygomatic_width_cm := Attr.num 0
  bigonial_width := 120
  bigonial_width_cm := Attr.absent
  measurement_confidence := 9/10
  wd_ratio_q := Attr.absent
  normalized_wd_value := Attr.absent
  demographic_percentile := Attr.absent
  robust_classification := none }

/-- Raw single-image result with an out-of-range overall confidence
1.25. -/
def rawC2w : RawResult := {
  wd_result := none
  forehead_result := none
  morphology_result := none
  neoclassical_result := none
  processing_metadata := some { overall_confidence := 5/4 } }

/-- Multi-angle carrier exposing a combined confidence of exactly 0. -/
def mrC8 : MultiRaw := {
  angle_results := []
  combined_wd_value := none
  combined_forehead_angle := none
  combined_face_shape := none
  combined_confidence := some 0 }

/-- Multi-angle carrier exposing the out-of-range combined confidence
1.25. -/
def mrC8w : MultiRaw := {
  angle_results := []
  combined_wd_value := none
  combined_forehead_angle := none
  combined_face_shape := none
  combined_confidence := some (5/4) }

/-- Raw canon with deviation 9.5 percent and `is_valid = True`. -/
def cW1 : CanonRaw := {
  canon_name := some "canon_1"
  measured_ratio_q := Attr.num 1
  deviation_percentage := Attr.num (19/2)
  is_valid := some true
  confidence := Attr.num (9/10)
  validity_score := Attr.absent
  expected_ratio_q := Attr.absent
  acceptable_deviation := Attr.absent }

/-- Angle result carrying only a neoclassical record with the canon
`cW1`. -/
def arW : AngleRaw := {
  wd_result := none
  forehead_result := none
  morphology_result := none
  neoclassical_result := some {
    overall_validity_score := Attr.num (4/5)
    beauty_score := Attr.absent
    proportion_balance := Attr.absent
    confidence := Attr.num (9/10)
    canons := some [cW1] } }

/-- Multi-angle carrier with one frontal angle carrying `arW`. -/
def mrW : MultiRaw := {
  angle_results := [("frontal", some arW)]
  combined_wd_value := none
  combined_forehead_angle := none
  combined_face_shape := none
  combined_confidence := none }

/-- Empty angle result (all modules falsy). -/
def arF : AngleRaw := {
  wd_result := none
  forehead_result := none
  morphology_result := none
  neoclassical_result := none }

/-- Scenario C carrier: `frontal` present, `profile` mapped to null. -/
def mrC7 : MultiRaw := {
  angle_results := [("frontal", some arF), ("profile", none)]
  combined_wd_value := none
  combined_forehead_angle := none
  combined_face_shape := none
  combined_confidence := none }

/-! ## General lemmas -/

/-- Inversion of a successful `Except` bind. -/
theorem except_bind_ok {α β : Type} {x : Except String α} {f : α → Except String β} {b : β}
    (h : x >>= f = Except.ok b) : ∃ a, x = Except.ok a ∧ f a = Except.ok b := by
  cases x with
  | error e =>
      exfalso
      simp only [Bind.bind, Except.bind] at h
      exact Except.noConfusion h
  | ok a =>
      refine ⟨a, rfl, ?_⟩
      simpa only [Bind.bind, Except.bind] using h

/-- Inversion of a successful `Except` pure. -/
theorem except_pure_ok {β : Type} {a b : β} (h : (pure a : Except String β) = Except.ok b) :
    a = b := by
  simpa only [pure, Except.pure, Except.ok.injEq] using h

theorem clamp_nonneg (x : ℚ) : 0 ≤ clamp x := le_max_left 0 _

theorem clamp_le_one (x : ℚ) : clamp x ≤ 1 := max_le (by norm_num) (min_le_left 1 x)

theorem clamp_eq_self {x : ℚ} (h0 : 0 ≤ x) (h1 : x ≤ 1) : clamp x = x := by
  unfold clamp
  rw [min_eq_right h1, max_eq_right h0]

theorem clamp_idem (x : ℚ) : clamp (clamp x) = clamp x :=
  clamp_eq_self (clamp_nonneg x) (clamp_le_one x)

/-- The clamp of `state.py` (`min(1.0, max(0.0, x))`) agrees with the clamp
of `capa_service.py` (`max(0.0, min(1.0, x))`). -/
theorem min_max_eq_clamp (x : ℚ) : min 1 (max 0 x) = clamp x := by
  unfold clamp
  rw [max_min_distrib_left]
  norm_num

/-- Membership after a Python-dict insertion: an entry of the new dict is an
old entry or carries the inserted value. -/
theorem dictInsert_mem {α : Type} {m : List (String × α)} {k : String} {v : α}
    {p : String × α} (hp : p ∈ dictInsert m k v) : p ∈ m ∨ p.2 = v := by
  unfold dictInsert at hp
  split at hp
  · obtain ⟨q, hq, hqe⟩ := List.mem_map.mp hp
    by_cases h : q.1 = k
    · right
      rw [if_pos h] at hqe
      rw [← hqe]
    · left
      rw [if_neg h] at hqe
      rw [← hqe]
      exact hq
  · rcases List.mem_append.mp hp with h | h
    · exact Or.inl h
    · right
      rw [List.mem_singleton.mp h]

/-- Inserting a fresh key appends. -/
theorem dictInsert_fresh {α : Type} {m : List (String × α)} {k : String} {v : α}
    (h : ∀ q ∈ m, q.1 ≠ k) : dictInsert m k v = m ++ [(k, v)] := by
  unfold dictInsert
  rw [if_neg]
  simp only [List.any_eq_true, decide_eq_true_eq, not_exists]
  intro q hq
  exact h q hq.1 hq.2

/-! ## Inversion lemmas for the record constructors -/

/-- What a successful `wd_dict` construction guarantees. -/
theorem mkWdDict_ok {w : WDRaw} {d : WdDict} (h : mkWdDict w = Except.ok d) :
    d.confidence = clamp w.measurement_confidence
    ∧ d.units = unitTag w.wd_value_cm
    ∧ cmPreferred w.wd_value_cm w.wd_value = Except.ok d.wd_value
    ∧ cmPreferred w.bizygomatic_width_cm w.bizygomatic_width = Except.ok d.bizygomatic_width
    ∧ cmPreferred w.bigonial_width_cm w.bigonial_width = Except.ok d.bigonial_width := by
  unfold mkWdDict at h
  obtain ⟨v, hv, h⟩ := except_bind_ok h
  obtain ⟨bz, hbz, h⟩ := except_bind_ok h
  obtain ⟨bg, hbg, h⟩ := except_bind_ok h
  obtain ⟨wr, hwr, h⟩ := except_bind_ok h
  obtain ⟨nw, hnw, h⟩ := except_bind_ok h
  obtain ⟨dp, hdp, h⟩ := except_bind_ok h
  have hd := except_pure_ok h
  subst hd
  exact ⟨rfl, rfl, hv, hbz, hbg⟩

/-- The single-image forehead record stores the raw measurement confidence
verbatim (no clamping on this path). -/
theorem mkFhDict_ok {f : FhRaw} {d : FhDict} (h : mkFhDict f = Except.ok d) :
    d.confidence = f.measurement_confidence := by
  unfold mkFhDict at h
  obtain ⟨a1, h1, h⟩ := except_bind_ok h
  obtain ⟨a2, h2, h⟩ := except_bind_ok h
  obtain ⟨a3, h3, h⟩ := except_bind_ok h
  obtain ⟨a4, h4, h⟩ := except_bind_ok h
  obtain ⟨a5, h5, h⟩ := except_bind_ok h
  have hd := except_pure_ok h
  subst hd
  rfl

/-- The single-image morphology record stores the raw measurement confidence
and the raw shape confidence verbatim (no clamping on this path). -/
theorem mkMorphDict_ok {m : MorphRaw} {d : MorphDict} (h : mkMorphDict m = Except.ok d) :
    d.confidence = m.measurement_confidence
    ∧ optFloat m.shape_confidence = Except.ok d.shape_confidence := by
  unfold mkMorphDict at h
  obtain ⟨a1, h1, h⟩ := except_bind_ok h
  obtain ⟨a2, h2, h⟩ := except_bind_ok h
  obtain ⟨a3, h3, h⟩ := except_bind_ok h
  obtain ⟨a4, h4, h⟩ := except_bind_ok h
  obtain ⟨a5, h5, h⟩ := except_bind_ok h
  obtain ⟨a6, h6, h⟩ := except_bind_ok h
  obtain ⟨a7, h7, h⟩ := except_bind_ok h
  obtain ⟨a8, h8, h⟩ := except_bind_ok h
  obtain ⟨a9, h9, h⟩ := except_bind_ok h
  obtain ⟨a10, h10, h⟩ := except_bind_ok h
  have hd := except_pure_ok h
  subst hd
  exact ⟨rfl, h1⟩

/-- The single-image canon entry copies the SDK `is_valid` flag (default
`False`) into `within_range` and stores the canon confidence verbatim. -/
theorem mkCanonEntryS_ok {c : CanonRaw} {e : CanonEntryS} (h : mkCanonEntryS c = Except.ok e) :
    e.within_range = c.is_valid.getD false
    ∧ getattrFloat c.confidence (4/5) = Except.ok e.confidence := by
  unfold mkCanonEntryS at h
  obtain ⟨a1, h1, h⟩ := except_bind_ok h
  obtain ⟨a2, h2, h⟩ := except_bind_ok h
  obtain ⟨a3, h3, h⟩ := except_bind_ok h
  have hd := except_pure_ok h
  subst hd
  exact ⟨rfl, h3⟩

/-- The multi-angle canon entry recomputes `within_range` from the uniform
threshold on the stored deviation and stores the canon confidence verbatim. -/
theorem mkCanonEntryM_ok {c : CanonRaw} {e : CanonEntryM} (h : mkCanonEntryM c = Except.ok e) :
    e.within_range = decide (|e.deviation| ≤ DEVIATION_THRESHOLD)
    ∧ getattrFloat c.confidence (4/5) = Except.ok e.confidence := by
  unfold mkCanonEntryM at h
  obtain ⟨a1, h1, h⟩ := except_bind_ok h
  obtain ⟨a2, h2, h⟩ := except_bind_ok h
  obtain ⟨a3, h3, h⟩ := except_bind_ok h
  obtain ⟨a4, h4, h⟩ := except_bind_ok h
  obtain ⟨a5, h5, h⟩ := except_bind_ok h
  obtain ⟨a6, h6, h⟩ := except_bind_ok h
  have hd := except_pure_ok h
  subst hd
  exact ⟨rfl, h4⟩

/-- The multi-angle WD record clamps its confidence, tags units from the wd
cm attribute and reconciles each width by the cm-preference pattern. -/
theorem mkWdDictM_ok {w : WDRaw} {d : WdDictM} (h : mkWdDictM w = Except.ok d) :
    d.confidence = clamp w.measurement_confidence
    ∧ d.units = unitTag w.wd_value_cm
    ∧ cmPreferred w.wd_value_cm w.wd_value = Except.ok d.wd_value
    ∧ cmPreferred w.bizygomatic_width_cm w.bizygomatic_width
        = Except.ok d.bizygomatic_width := by
  unfold mkWdDictM at h
  obtain ⟨a1, h1, h⟩ := except_bind_ok h
  obtain ⟨a2, h2, h⟩ := except_bind_ok h
  obtain ⟨a3, h3, h⟩ := except_bind_ok h
  have hd := except_pure_ok h
  subst hd
  exact ⟨rfl, rfl, h1, h2⟩

/-- The multi-angle forehead record clamps its confidence. -/
theorem mkFhDictM_ok {f : FhRaw} {d : FhDictM} (h : mkFhDictM f = Except.ok d) :
    d.confidence = clamp f.measurement_confidence := by
  unfold mkFhDictM at h
  obtain ⟨a1, h1, h⟩ := except_bind_ok h
  obtain ⟨a2, h2, h⟩ := except_bind_ok h
  obtain ⟨a3, h3, h⟩ := except_bind_ok h
  obtain ⟨a4, h4, h⟩ := except_bind_ok h
  have hd := except_pure_ok h
  subst hd
  rfl

/-- The multi-angle morphology record clamps its confidence. -/
theorem mkMorphDictM_ok {m : MorphRaw} {d : MorphDictM} (h : mkMorphDictM m = Except.ok d) :
    d.confidence = clamp m.measurement_confidence := by
  unfold mkMorphDictM at h
  obtain ⟨a1, h1, h⟩ := except_bind_ok h
  obtain ⟨a2, h2, h⟩ := except_bind_ok h
  obtain ⟨a3, h3, h⟩ := except_bind_ok h
  obtain ⟨a4, h4, h⟩ := except_bind_ok h
  obtain ⟨a5, h5, h⟩ := except_bind_ok h
  have hd := except_pure_ok h
  subst hd
  rfl

/-- What a successful `analyze_wd_only` record construction guarantees. -/
theorem mkWdOnlyDict_ok {w : WDRaw} {d : WdOnlyDict} (h : mkWdOnlyDict w = Except.ok d) :
    d.confidence = w.measurement_confidence
    ∧ d.units = unitTag w.wd_value_cm
    ∧ cmPreferred w.wd_value_cm w.wd_value = Except.ok d.wd_value
    ∧ cmPreferred w.bizygomatic_width_cm w.bizygomatic_width
        = Except.ok d.bizygomatic_width := by
  unfold mkWdOnlyDict at h
  obtain ⟨a1, h1, h⟩ := except_bind_ok h
  obtain ⟨a2, h2, h⟩ := except_bind_ok h
  obtain ⟨a3, h3, h⟩ := except_bind_ok h
  have hd := except_pure_ok h
  subst hd
  exact ⟨rfl, rfl, h1, h2⟩

/-- The units tag says cm exactly when the cm attribute is a nonzero number,
whenever the value reconciliation succeeded on the same attribute. -/
theorem unitTag_eq_cm_iff {a : Attr} {px v : ℚ} (hv : cmPreferred a px = Except.ok v) :
    (unitTag a = "cm" ↔ ∃ c, a = Attr.num c ∧ c ≠ 0) := by
  cases a with
  | absent =>
      refine iff_of_false (by decide) ?_
      rintro ⟨c, hc, _⟩
      exact Attr.noConfusion hc
  | pynone =>
      exact absurd hv (by intro hx; exact Except.noConfusion hx)
  | num c =>
      show (if c = 0 then "px" else "cm") = "cm" ↔ _
      by_cases hc : c = 0
      · rw [if_pos hc]
        refine iff_of_false (by decide) ?_
        rintro ⟨c2, hc2, hne⟩
        injection hc2 with hh
        refine hne ?_
        rw [← hh]
        exact hc
      · rw [if_neg hc]
        exact iff_of_true rfl ⟨c, rfl, hc⟩

/-! ## Invariants of the multi-angle loop -/

/-- The canon fold of the multi-angle path only inserts entries satisfying
the threshold property. -/
theorem canonFoldM_inv :
    ∀ (cs : List CanonRaw) (acc l : List (String × CanonEntryM)),
      (∀ p ∈ acc, p.2.within_range = decide (|p.2.deviation| ≤ DEVIATION_THRESHOLD)) →
      cs.foldlM (fun m c => do
        let e ← mkCanonEntryM c
        pure (dictInsert m (canonName c m.length) e)) acc = Except.ok l →
      ∀ p ∈ l, p.2.within_range = decide (|p.2.deviation| ≤ DEVIATION_THRESHOLD) := by
  intro cs
  induction cs with
  | nil =>
      intro acc l hacc h
      simp only [List.foldlM_nil] at h
      have := except_pure_ok h
      subst this
      exact hacc
  | cons c cs ih =>
      intro acc l hacc h
      rw [List.foldlM_cons] at h
      obtain ⟨acc', hstep, h⟩ := except_bind_ok h
      obtain ⟨e, he, hp⟩ := except_bind_ok hstep
      have hacc' := except_pure_ok hp
      subst hacc'
      refine ih _ _ ?_ h
      intro p hmem
      rcases dictInsert_mem hmem with hm | hv
      · exact hacc p hm
      · rw [hv]
        exact (mkCanonEntryM_ok he).1

/-- The optional multi-angle canon dictionary only holds entries satisfying
the threshold property. -/
theorem canonsOptM_prop {canons : Option (List CanonRaw)}
    {cm : Option (List (String × CanonEntryM))} (h : canonsOptM canons = Except.ok cm) :
    ∀ l, cm = some l →
      ∀ p ∈ l, p.2.within_range = decide (|p.2.deviation| ≤ DEVIATION_THRESHOLD) := by
  unfold canonsOptM at h
  split at h
  · obtain ⟨l', hl', hp⟩ := except_bind_ok h
    have := except_pure_ok hp
    subst this
    intro l hl
    injection hl with hl
    subst hl
    unfold buildCanonsM at hl'
    exact canonFoldM_inv _ [] l' (by simp) hl'
  · have := except_pure_ok h
    subst this
    intro l hl
    exact absurd hl (by simp)

/-- A successful multi-angle `neo_dict` satisfies the canon threshold
property. -/
theorem mkNeoDictM_prop {n : NeoRaw} {d : NeoDictM} (h : mkNeoDictM n = Except.ok d) :
    ndCanonProp d := by
  unfold mkNeoDictM at h
  obtain ⟨a1, h1, h⟩ := except_bind_ok h
  obtain ⟨a2, h2, h⟩ := except_bind_ok h
  obtain ⟨a3, h3, h⟩ := except_bind_ok h
  obtain ⟨a4, h4, h⟩ := except_bind_ok h
  obtain ⟨cm, hcm, h⟩ := except_bind_ok h
  have hd := except_pure_ok h
  subst hd
  intro l hl
  exact canonsOptM_prop hcm l hl

/-- Fields untouched by the WD extraction step. -/
theorem stepWd_pres {angle : String} {ar : AngleRaw} {acc acc' : MultiResults}
    (h : stepWd angle ar acc = Except.ok acc') :
    acc'.success = acc.success ∧ acc'.combined_confidence = acc.combined_confidence
    ∧ acc'.angle_results = acc.angle_results
    ∧ acc'.forehead_result = acc.forehead_result
    ∧ acc'.neoclassical_result = acc.neoclassical_result := by
  unfold stepWd at h
  split at h
  · obtain ⟨d, hd, h⟩ := except_bind_ok h
    have := except_pure_ok h
    subst this
    exact ⟨rfl, rfl, rfl, rfl, rfl⟩
  · have := except_pure_ok h
    subst this
    exact ⟨rfl, rfl, rfl, rfl, rfl⟩

/-- Fields untouched by the forehead extraction step. -/
theorem stepFh_pres {angle : String} {ar : AngleRaw} {acc acc' : MultiResults}
    (h : stepFh angle ar acc = Except.ok acc') :
    acc'.success = acc.success ∧ acc'.combined_confidence = acc.combined_confidence
    ∧ acc'.angle_results = acc.angle_results
    ∧ acc'.neoclassical_result = acc.neoclassical_result := by
  unfold stepFh at h
  split at h
  · obtain ⟨d, hd, h⟩ := except_bind_ok h
    have := except_pure_ok h
    subst this
    exact ⟨rfl, rfl, rfl, rfl⟩
  · have := except_pure_ok h
    subst this
    exact ⟨rfl, rfl, rfl, rfl⟩

/-- On any angle other than `profile` the forehead extraction step leaves
the forehead sub-record unchanged. -/
theorem stepFh_not_profile {angle : String} {ar : AngleRaw} {acc acc' : MultiResults}
    (hangle : angle ≠ "profile") (h : stepFh angle ar acc = Except.ok acc') :
    acc'.forehead_result = acc.forehead_result := by
  unfold stepFh at h
  have hb : (angle == "profile") = false := by
    exact beq_false_of_ne hangle
  rw [hb] at h
  rcases har : ar.forehead_result with _ | f
  all_goals rw [har] at h
  all_goals have := except_pure_ok h
  all_goals subst this
  all_goals rfl

/-- Fields untouched by the morphology extraction step. -/
theorem stepMorph_pres {angle : String} {ar : AngleRaw} {acc acc' : MultiResults}
    (h : stepMorph angle ar acc = Except.ok acc') :
    acc'.success = acc.success ∧ acc'.combined_confidence = acc.combined_confidence
    ∧ acc'.angle_results = acc.angle_results
    ∧ acc'.forehead_result = acc.forehead_result
    ∧ acc'.neoclassical_result = acc.neoclassical_result := by
  unfold stepMorph at h
  split at h
  · obtain ⟨d, hd, h⟩ := except_bind_ok h
    have := except_pure_ok h
    subst this
    exact ⟨rfl, rfl, rfl, rfl, rfl⟩
  · have := except_pure_ok h
    subst this
    exact ⟨rfl, rfl, rfl, rfl, rfl⟩

/-- Fields untouched by the neoclassical extraction step. -/
theorem stepNeo_pres {angle : String} {ar : AngleRaw} {acc acc' : MultiResults}
    (h : stepNeo angle ar acc = Except.ok acc') :
    acc'.success = acc.success ∧ acc'.combined_confidence = acc.combined_confidence
    ∧ acc'.angle_results = acc.angle_results
    ∧ acc'.forehead_result = acc.forehead_result := by
  unfold stepNeo at h
  split at h
  · obtain ⟨d, hd, h⟩ := except_bind_ok h
    have := except_pure_ok h
    subst this
    exact ⟨rfl, rfl, rfl, rfl⟩
  · have := except_pure_ok h
    subst this
    exact ⟨rfl, rfl, rfl, rfl⟩

/-- The neoclassical extraction step preserves the canon threshold
invariant. -/
theorem stepNeo_inv {angle : String} {ar : AngleRaw} {acc acc' : MultiResults}
    (h : stepNeo angle ar acc = Except.ok acc')
    (hinv : ∀ nd, acc.neoclassical_result = some nd → ndCanonProp nd) :
    ∀ nd, acc'.neoclassical_result = some nd → ndCanonProp nd := by
  unfold stepNeo at h
  split at h
  · obtain ⟨d, hd, h⟩ := except_bind_ok h
    have := except_pure_ok h
    subst this
    intro nd hnd
    simp only [Option.some.injEq] at hnd
    subst hnd
    exact mkNeoDictM_prop hd
  · have := except_pure_ok h
    subst this
    exact hinv

/-- `processAngle` writes exactly one status entry for its angle. -/
theorem processAngle_angles {acc acc' : MultiResults} {p : String × Option AngleRaw}
    (h : processAngle acc p = Except.ok acc') :
    acc'.angle_results = dictInsert acc.angle_results p.1 (statusOf p.2) := by
  unfold processAngle at h
  rcases hp : p.2 with _ | ar
  all_goals rw [hp] at h
  · injection h with h
    subst h
    rfl
  · obtain ⟨a1, h1, h⟩ := except_bind_ok h
    obtain ⟨a2, h2, h⟩ := except_bind_ok h
    obtain ⟨a3, h3, h⟩ := except_bind_ok h
    obtain ⟨a4, h4, h⟩ := except_bind_ok h
    have := except_pure_ok h
    subst this
    show dictInsert a4.angle_results p.1 ("Success") = _
    rw [(stepNeo_pres h4).2.2.1, (stepMorph_pres h3).2.2.1, (stepFh_pres h2).2.2.1,
        (stepWd_pres h1).2.2.1]
    rfl

/-- `processAngle` never changes `success` or the combined confidence. -/
theorem processAngle_pres {acc acc' : MultiResults} {p : String × Option AngleRaw}
    (h : processAngle acc p = Except.ok acc') :
    acc'.success = acc.success ∧ acc'.combined_confidence = acc.combined_confidence := by
  unfold processAngle at h
  rcases hp : p.2 with _ | ar
  all_goals rw [hp] at h
  · injection h with h
    subst h
    exact ⟨rfl, rfl⟩
  · obtain ⟨a1, h1, h⟩ := except_bind_ok h
    obtain ⟨a2, h2, h⟩ := except_bind_ok h
    obtain ⟨a3, h3, h⟩ := except_bind_ok h
    obtain ⟨a4, h4, h⟩ := except_bind_ok h
    have := except_pure_ok h
    subst this
    constructor
    · show a4.success = acc.success
      rw [(stepNeo_pres h4).1, (stepMorph_pres h3).1, (stepFh_pres h2).1, (stepWd_pres h1).1]
    · show a4.combined_confidence = acc.combined_confidence
      rw [(stepNeo_pres h4).2.1, (stepMorph_pres h3).2.1, (stepFh_pres h2).2.1,
          (stepWd_pres h1).2.1]

/-- `processAngle` preserves the canon threshold invariant. -/
theorem processAngle_neo_inv {acc acc' : MultiResults} {p : String × Option AngleRaw}
    (h : processAngle acc p = Except.ok acc')
    (hinv : ∀ nd, acc.neoclassical_result = some nd → ndCanonProp nd) :
    ∀ nd, acc'.neoclassical_result = some nd → ndCanonProp nd := by
  unfold processAngle at h
  rcases hp : p.2 with _ | ar
  all_goals rw [hp] at h
  · injection h with h
    subst h
    exact hinv
  · obtain ⟨a1, h1, h⟩ := except_bind_ok h
    obtain ⟨a2, h2, h⟩ := except_bind_ok h
    obtain ⟨a3, h3, h⟩ := except_bind_ok h
    obtain ⟨a4, h4, h⟩ := except_bind_ok h
    have := except_pure_ok h
    subst this
    intro nd hnd
    have hnd4 : a4.neoclassical_result = some nd := hnd
    have hinv1 : ∀ nd, a1.neoclassical_result = some nd → ndCanonProp nd := by
      rw [(stepWd_pres h1).2.2.2.2]
      exact hinv
    have hinv2 : ∀ nd, a2.neoclassical_result = some nd → ndCanonProp nd := by
      rw [(stepFh_pres h2).2.2.2]
      exact hinv1
    have hinv3 : ∀ nd, a3.neoclassical_result = some nd → ndCanonProp nd := by
      rw [(stepMorph_pres h3).2.2.2.2]
      exact hinv2
    exact stepNeo_inv h4 hinv3 nd hnd4

/-- `processAngle` leaves the forehead sub-record unchanged unless the angle
is a successful `profile`. -/
theorem processAngle_forehead {acc acc' : MultiResults} {p : String × Option AngleRaw}
    (h : processAngle acc p = Except.ok acc')
    (hp : p.1 ≠ "profile" ∨ p.2 = none) :
    acc'.forehead_result = acc.forehead_result := by
  unfold processAngle at h
  rcases hp2 : p.2 with _ | ar
  all_goals rw [hp2] at h
  · injection h with h
    subst h
    rfl
  · have hname : p.1 ≠ "profile" := by
      rcases hp with hn | hnone
      · exact hn
      · rw [hp2] at hnone
        exact absurd hnone (by simp)
    obtain ⟨a1, h1, h⟩ := except_bind_ok h
    obtain ⟨a2, h2, h⟩ := except_bind_ok h
    obtain ⟨a3, h3, h⟩ := except_bind_ok h
    obtain ⟨a4, h4, h⟩ := except_bind_ok h
    have := except_pure_ok h
    subst this
    show a4.forehead_result = acc.forehead_result
    rw [(stepNeo_pres h4).2.2.2, (stepMorph_pres h3).2.2.2.1,
        stepFh_not_profile hname h2, (stepWd_pres h1).2.2.2.1]

/-- The per-angle fold never changes `success` or the combined
confidence. -/
theorem foldProcess_pres :
    ∀ (l : List (String × Option AngleRaw)) (acc r : MultiResults),
      List.foldlM processAngle acc l = Except.ok r →
      r.success = acc.success ∧ r.combined_confidence = acc.combined_confidence := by
  intro l
  induction l with
  | nil =>
      intro acc r h
      simp only [List.foldlM_nil] at h
      have := except_pure_ok h
      subst this
      exact ⟨rfl, rfl⟩
  | cons p l ih =>
      intro acc r h
      rw [List.foldlM_cons] at h
      obtain ⟨acc', hstep, h⟩ := except_bind_ok h
      obtain ⟨hs, hc⟩ := processAngle_pres hstep
      obtain ⟨hs2, hc2⟩ := ih acc' r h
      exact ⟨hs2.trans hs, hc2.trans hc⟩

/-- The per-angle fold preserves the canon threshold invariant. -/
theorem foldProcess_neo_inv :
    ∀ (l : List (String × Option AngleRaw)) (acc r : MultiResults),
      List.foldlM processAngle acc l = Except.ok r →
      (∀ nd, acc.neoclassical_result = some nd → ndCanonProp nd) →
      ∀ nd, r.neoclassical_result = some nd → ndCanonProp nd := by
  intro l
  induction l with
  | nil =>
      intro acc r h hinv
      simp only [List.foldlM_nil] at h
      have := except_pure_ok h
      subst this
      exact hinv
  | cons p l ih =>
      intro acc r h hinv
      rw [List.foldlM_cons] at h
      obtain ⟨acc', hstep, h⟩ := except_bind_ok h
      exact ih acc' r h (processAngle_neo_inv hstep hinv)

/-- When no `profile` angle carries a result, the fold leaves the forehead
sub-record unchanged. -/
theorem foldProcess_forehead :
    ∀ (l : List (String × Option AngleRaw)) (acc r : MultiResults),
      List.foldlM processAngle acc l = Except.ok r →
      (∀ o, ("profile", o) ∈ l → o = none) →
      r.forehead_result = acc.forehead_result := by
  intro l
  induction l with
  | nil =>
      intro acc r h hprof
      simp only [List.foldlM_nil] at h
      have := except_pure_ok h
      subst this
      rfl
  | cons p l ih =>
      intro acc r h hprof
      rw [List.foldlM_cons] at h
      obtain ⟨acc', hstep, h⟩ := except_bind_ok h
      have hp : p.1 ≠ "profile" ∨ p.2 = none := by
        by_cases hn : p.1 = "profile"
        · right
          have : ("profile", p.2) ∈ p :: l := by
            rw [← hn]
            exact List.mem_cons_self p l
          exact hprof p.2 this
        · exact Or.inl hn
      have h1 := processAngle_forehead hstep hp
      have h2 := ih acc' r h (fun o ho => hprof o (List.mem_cons_of_mem p ho))
      exact h2.trans h1

/-- With pairwise distinct angle names (fresh over the accumulated statuses)
the fold appends one status entry per angle, in order. -/
theorem foldProcess_angles :
    ∀ (l : List (String × Option AngleRaw)) (acc r : MultiResults),
      List.foldlM processAngle acc l = Except.ok r →
      (l.map Prod.fst).Nodup →
      (∀ p ∈ l, ∀ q ∈ acc.angle_results, q.1 ≠ p.1) →
      r.angle_results = acc.angle_results ++ l.map (fun p => (p.1, statusOf p.2)) := by
  intro l
  induction l with
  | nil =>
      intro acc r h _ _
      simp only [List.foldlM_nil] at h
      have := except_pure_ok h
      subst this
      simp
  | cons p l ih =>
      intro acc r h hnd hfresh
      rw [List.foldlM_cons] at h
      obtain ⟨acc', hstep, h⟩ := except_bind_ok h
      have hins : acc'.angle_results = acc.angle_results ++ [(p.1, statusOf p.2)] := by
        rw [processAngle_angles hstep]
        exact dictInsert_fresh (fun q hq => hfresh p (List.mem_cons_self p l) q hq)
      rw [List.map_cons, List.nodup_cons] at hnd
      have hfresh' : ∀ p' ∈ l, ∀ q ∈ acc'.angle_results, q.1 ≠ p'.1 := by
        intro p' hp' q hq
        rw [hins] at hq
        rcases List.mem_append.mp hq with hq | hq
        · exact hfresh p' (List.mem_cons_of_mem p hp') q hq
        · rw [List.mem_singleton.mp hq]
          intro hcontra
          exact hnd.1 (hcontra ▸ List.mem_map_of_mem Prod.fst hp')
      have := ih acc' r h hnd.2 hfresh'
      rw [this, hins]
      simp

/-- Everything a successful `buildMulti` guarantees. -/
theorem buildMulti_ok {raw : MultiRaw} {sid : String} {elapsed : ℚ} {r : MultiResults}
    (h : buildMulti raw sid elapsed = Except.ok r) :
    r.success = true
    ∧ r.combined_confidence = (truthyFloat raw.combined_confidence).map clamp
    ∧ (∀ nd, r.neoclassical_result = some nd → ndCanonProp nd)
    ∧ ((raw.angle_results.map Prod.fst).Nodup →
        r.angle_results = raw.angle_results.map (fun p => (p.1, statusOf p.2)))
    ∧ ((∀ o, ("profile", o) ∈ raw.angle_results → o = none) → r.forehead_result = none) := by
  unfold buildMulti at h
  refine ⟨(foldProcess_pres _ _ _ h).1, (foldProcess_pres _ _ _ h).2, ?_, ?_, ?_⟩
  · refine foldProcess_neo_inv _ _ _ h ?_
    intro nd hnd
    exact absurd hnd (by simp [initMulti])
  · intro hnd
    have hfresh : ∀ p ∈ raw.angle_results, ∀ q ∈ (initMulti raw sid elapsed).angle_results,
        q.1 ≠ p.1 := by
      intro p hp q hq
      exact absurd hq (by simp [initMulti])
    have := foldProcess_angles _ _ _ h hnd hfresh
    simpa [initMulti] using this
  · intro hprof
    have := foldProcess_forehead _ _ _ h hprof
    simpa [initMulti] using this

/-- Inversion of a normalized optional sub-result. -/
theorem optSub_ok {A B : Type} {f : A → Except String B} {o : Option A} {b : Option B}
    (h : optSub f o = Except.ok b) :
    ∀ d, b = some d → ∃ a, o = some a ∧ f a = Except.ok d := by
  unfold optSub at h
  cases o with
  | none =>
      have := except_pure_ok h
      subst this
      intro d hd
      exact absurd hd (by simp)
  | some a =>
      obtain ⟨d', hd', hp⟩ := except_bind_ok h
      have := except_pure_ok hp
      subst this
      intro d hd
      injection hd with hd
      subst hd
      exact ⟨a, rfl, hd'⟩

/-- Everything a successful `buildResults` guarantees about the sub-record
origins, metadata and success flag. -/
theorem buildResults_ok {raw : RawResult} {mode : String} {ew ef em en : Bool} {elapsed : ℚ}
    {r : ResultsDict} (h : buildResults raw mode ew ef em en elapsed = Except.ok r) :
    (∀ d, r.wd_result = some d → ∃ w, raw.wd_result = some w ∧ mkWdDict w = Except.ok d)
    ∧ (∀ d, r.forehead_result = some d →
        ∃ f, raw.forehead_result = some f ∧ mkFhDict f = Except.ok d)
    ∧ (∀ d, r.morphology_result = some d →
        ∃ m, raw.morphology_result = some m ∧ mkMorphDict m = Except.ok d)
    ∧ (∀ d, r.neoclassical_result = some d →
        ∃ n, raw.neoclassical_result = some n ∧ mkNeoDictS n = Except.ok d)
    ∧ r.metadata = mkMeta raw.processing_metadata mode ew ef em en elapsed
    ∧ r.success = true := by
  unfold buildResults at h
  obtain ⟨wdo, hwdo, h⟩ := except_bind_ok h
  obtain ⟨fho, hfho, h⟩ := except_bind_ok h
  obtain ⟨moo, hmoo, h⟩ := except_bind_ok h
  obtain ⟨neoo, hneoo, h⟩ := except_bind_ok h
  have := except_pure_ok h
  subst this
  exact ⟨optSub_ok hwdo, optSub_ok hfho, optSub_ok hmoo, optSub_ok hneoo, rfl, rfl⟩

/-! ## Claim theorems -/

/-- Claim C9 counterexample: the claim says a `None` input is treated as 0.0
before clamping, but `_trait_to_numeric` sends Python `None` through
`str(...)` and the table default, producing 0.5, not 0.0. -/
theorem C9_counterexample :
    traitToNumeric TraitVal.pynone = 1/2 ∧ (1/2 : ℚ) ≠ 0 := by
  constructor
  · rfl
  · norm_num

/-- Claim C9 (amended): for numeric x, clamp(x) = max(0, min(1, x)) lies in
[0,1], is the identity on [0,1] and is idempotent, and the numeric branch of
the trait conversion agrees with it; but a `None` input is not treated as
0.0: the trait conversion maps `None` (like any unrecognized non-numeric
value) to 0.5, while the explicit string `N/A` maps to 0.0. -/
theorem C9_theorem :
    (∀ x : ℚ, 0 ≤ clamp x ∧ clamp x ≤ 1)
    ∧ (∀ x : ℚ, 0 ≤ x → x ≤ 1 → clamp x = x)
    ∧ (∀ x : ℚ, clamp (clamp x) = clamp x)
    ∧ (∀ v : ℚ, traitToNumeric (TraitVal.num v) = clamp v)
    ∧ traitToNumeric (TraitVal.str ("N/A")) = 0
    ∧ traitToNumeric TraitVal.pynone = 1/2 := by
  refine ⟨fun x => ⟨clamp_nonneg x, clamp_le_one x⟩,
    fun x h0 h1 => clamp_eq_self h0 h1, clamp_idem, fun v => ?_, rfl, rfl⟩
  show min 1 (max 0 v) = clamp v
  exact min_max_eq_clamp v

/-- Claim C9 witness: the identity-on-range part at the concrete input
0.649. -/
theorem C9_witness : clamp (649/1000) = 649/1000 :=
  C9_theorem.2.1 (649/1000) (by norm_num) (by norm_num)

/-- Claim C3 counterexample: a present-but-`None` cm value is not reconciled
to the pixel channel; `float(None)` raises instead. -/
theorem C3_counterexample :
    reconcile Attr.pynone (726/5) = Except.error floatNoneMsg
    ∧ reconcile Attr.pynone (726/5) ≠ Except.ok ((726/5 : ℚ), "px") := by
  have h0 : reconcile Attr.pynone (726/5) = Except.error floatNoneMsg := rfl
  refine ⟨h0, ?_⟩
  rw [h0]
  intro hc
  exact Except.noConfusion hc

/-- Claim C3 (amended): a numeric nonzero cm value is reconciled to
(cm, cm); a zero or absent cm value falls back to (px, px), preserving a
true zero pixel measurement as (0, px); a present-but-`None` cm value makes
the reconciliation raise (caught upstream into an error record).  The three
width fields of the WD record are reconciled by this same rule. -/
theorem C3_theorem :
    (∀ (c px : ℚ), c ≠ 0 → reconcile (Attr.num c) px = Except.ok (c, "cm"))
    ∧ (∀ px : ℚ, reconcile (Attr.num 0) px = Except.ok (px, "px"))
    ∧ (∀ px : ℚ, reconcile Attr.absent px = Except.ok (px, "px"))
    ∧ (∀ px : ℚ, reconcile Attr.pynone px = Except.error floatNoneMsg)
    ∧ (∀ (w : WDRaw) (d : WdDict), mkWdDict w = Except.ok d →
        cmPreferred w.wd_value_cm w.wd_value = Except.ok d.wd_value
        ∧ cmPreferred w.bizygomatic_width_cm w.bizygomatic_width
            = Except.ok d.bizygomatic_width
        ∧ cmPreferred w.bigonial_width_cm w.bigonial_width
            = Except.ok d.bigonial_width) := by
  refine ⟨?_, fun px => rfl, fun px => rfl, fun px => rfl, ?_⟩
  · intro c px hc
    unfold reconcile
    rw [show cmPreferred (Attr.num c) px = Except.ok c from by
      show (if c = 0 then Except.ok px else Except.ok c : Except String ℚ) = Except.ok c
      rw [if_neg hc]]
    show (pure (c, unitTag (Attr.num c)) : Except String (ℚ × String)) = _
    show (pure (c, if c = 0 then "px" else "cm") : Except String (ℚ × String)) = _
    rw [if_neg hc]
    rfl
  · intro w d h
    exact (mkWdDict_ok h).2.2

/-- Claim C3 witness: end-to-end scenario A, cm = 3.897 and px = 145.2
reconcile to (3.897, cm). -/
theorem C3_witness :
    reconcile (Attr.num (3897/1000)) (726/5) = Except.ok ((3897/1000 : ℚ), "cm") :=
  C3_theorem.1 (3897/1000) (726/5) (by norm_num)

/-- Claim C8 counterexample: a raw carrier exposing the combined confidence
0.0 is stored as null, not as clamp(0) = 0, because the code guards the
conversion with Python truthiness. -/
theorem C8_counterexample :
    multiCombConf (buildMulti mrC8 ("subject_001") 0) = some none
    ∧ some (clamp 0) ≠ (none : Option ℚ) := by
  constructor
  · rfl
  · simp

/-- Claim C8 (amended): the stored combined confidence is clamp(v) whenever
the raw carrier exposes a non-null, nonzero combined confidence v, and null
when the exposed value is null or exactly 0. -/
theorem C8_theorem :
    ∀ (raw : MultiRaw) (sid : String) (elapsed : ℚ) (r : MultiResults),
      buildMulti raw sid elapsed = Except.ok r →
      r.combined_confidence =
        (match raw.combined_confidence with
         | none => none
         | some v => if v = 0 then none else some (clamp v)) := by
  intro raw sid elapsed r h
  rw [(buildMulti_ok h).2.1]
  unfold truthyFloat
  cases raw.combined_confidence with
  | none => rfl
  | some v =>
      show Option.map clamp (if v = 0 then none else some v)
        = (if v = 0 then none else some (clamp v))
      by_cases hv : v = 0
      · rw [if_pos hv, if_pos hv]
        rfl
      · rw [if_neg hv, if_neg hv]
        rfl

/-- Claim C8 witness: a nonzero out-of-range combined confidence 1.25 is
stored as clamp(1.25) = 1. -/
theorem C8_witness :
    ∃ r, buildMulti mrC8w ("subject_001") 0 = Except.ok r
      ∧ r.combined_confidence = some (clamp (5/4)) := by
  refine ⟨_, rfl, ?_⟩
  rw [C8_theorem mrC8w ("subject_001") 0 _ rfl]
  show (if (5/4 : ℚ) = 0 then none else some (clamp (5/4))) = some (clamp (5/4))
  rw [if_neg (by norm_num : ¬ (5/4 : ℚ) = 0)]

/-- Claim C1 counterexample: on the single-image path a canon with stored
deviation -38.6 and SDK flag `is_valid = True` is stored with
`within_range = true`, although `abs(-38.6) <= 10.0` is false — the
single-image path does not apply the 10 percent rule. -/
theorem C1_counterexample :
    singleWithinFlags (analyze_single_image ("STANDARD")
        (SdkAnalyze.returns (some rawC1)) true true true true 1).1 = [true]
    ∧ singleCanonDevs (analyze_single_image ("STANDARD")
        (SdkAnalyze.returns (some rawC1)) true true true true 1).1 = [-193/5]
    ∧ decide (|(-193/5 : ℚ)| ≤ DEVIATION_THRESHOLD) = false := by
  refine ⟨rfl, rfl, ?_⟩
  simp only [decide_eq_false_iff_not, DEVIATION_THRESHOLD]
  rw [show |(-193/5 : ℚ)| = 193/5 from by
    rw [abs_of_nonpos (by norm_num)]
    norm_num]
  norm_num

/-- Claim C1 (amended): only the multi-angle path recomputes
`within_range` uniformly as `abs(deviationPercent) <= 10.0` (for every
stored canon entry); on the single-image path `within_range` is copied from
the SDK `is_valid` flag (`False` when absent), regardless of the stored
deviation. -/
theorem C1_theorem :
    (∀ (raw : MultiRaw) (sid : String) (elapsed : ℚ) (r : MultiResults) (nd : NeoDictM),
        buildMulti raw sid elapsed = Except.ok r → r.neoclassical_result = some nd →
        ∀ l, nd.canon_measurements = some l →
          ∀ p ∈ l, p.2.within_range = decide (|p.2.deviation| ≤ DEVIATION_THRESHOLD))
    ∧ (∀ (c : CanonRaw) (e : CanonEntryS), mkCanonEntryS c = Except.ok e →
        e.within_range = c.is_valid.getD false) := by
  constructor
  · intro raw sid elapsed r nd h hnd l hl p hp
    exact (buildMulti_ok h).2.2.1 nd hnd l hl p hp
  · intro c e h
    exact (mkCanonEntryS_ok h).1

/-- Claim C1 witness: the multi-angle flag for a stored deviation of 9.5
percent, and the single-image flag copied from `is_valid`. -/
theorem C1_witness :
    (∃ r : MultiResults, buildMulti mrW ("subject_001") 0 = Except.ok r
      ∧ ∃ nd, r.neoclassical_result = some nd
        ∧ ∃ l, nd.canon_measurements = some l
          ∧ ∀ p ∈ l, p.2.within_range = decide (|p.2.deviation| ≤ DEVIATION_THRESHOLD))
    ∧ (∃ e, mkCanonEntryS cW1 = Except.ok e ∧ e.within_range = cW1.is_valid.getD false) := by
  constructor
  · refine ⟨_, rfl, _, rfl, _, rfl, ?_⟩
    exact C1_theorem.1 mrW ("subject_001") 0 _ _ rfl rfl _ rfl
  · exact ⟨_, rfl, C1_theorem.2 cW1 _ rfl⟩

/-- Claim C2 counterexample: a raw forehead confidence of 1.25 is stored
unchanged (1.25 > 1) in the single-image record — it is not clamped. -/
theorem C2_counterexample :
    singleFhConf (analyze_single_image ("STANDARD")
        (SdkAnalyze.returns (some rawC2)) true true true true 1).1 = some (5/4)
    ∧ ¬ ((5/4 : ℚ) ≤ 1) := by
  constructor
  · rfl
  · norm_num

/-- Claim C2 (amended): on the single-image path only the WD confidence and
the metadata overall confidence are clamped into [0,1]; the forehead,
morphology, shape and canon confidences of that path are stored verbatim,
as received.  On the multi-angle path the wd, forehead and morphology
confidences are clamped into [0,1], but the canon confidences are stored
verbatim. -/
theorem C2_theorem :
    (∀ (raw : RawResult) (mode : String) (ew ef em en : Bool) (elapsed : ℚ) (r : ResultsDict),
        buildResults raw mode ew ef em en elapsed = Except.ok r →
        (∀ d, r.wd_result = some d → 0 ≤ d.confidence ∧ d.confidence ≤ 1)
        ∧ 0 ≤ r.metadata.overall_confidence ∧ r.metadata.overall_confidence ≤ 1)
    ∧ (∀ (f : FhRaw) (d : FhDict), mkFhDict f = Except.ok d →
        d.confidence = f.measurement_confidence)
    ∧ (∀ (m : MorphRaw) (d : MorphDict), mkMorphDict m = Except.ok d →
        d.confidence = m.measurement_confidence
        ∧ optFloat m.shape_confidence = Except.ok d.shape_confidence)
    ∧ (∀ (c : CanonRaw) (e : CanonEntryS), mkCanonEntryS c = Except.ok e →
        getattrFloat c.confidence (4/5) = Except.ok e.confidence)
    ∧ (∀ (w : WDRaw) (d : WdDictM), mkWdDictM w = Except.ok d →
        0 ≤ d.confidence ∧ d.confidence ≤ 1)
    ∧ (∀ (f : FhRaw) (d : FhDictM), mkFhDictM f = Except.ok d →
        0 ≤ d.confidence ∧ d.confidence ≤ 1)
    ∧ (∀ (m : MorphRaw) (d : MorphDictM), mkMorphDictM m = Except.ok d →
        0 ≤ d.confidence ∧ d.confidence ≤ 1)
    ∧ (∀ (c : CanonRaw) (e : CanonEntryM), mkCanonEntryM c = Except.ok e →
        getattrFloat c.confidence (4/5) = Except.ok e.confidence) := by
  refine ⟨?_, fun f d h => mkFhDict_ok h, fun m d h => mkMorphDict_ok h,
    fun c e h => (mkCanonEntryS_ok h).2, ?_, ?_, ?_, fun c e h => (mkCanonEntryM_ok h).2⟩
  · intro raw mode ew ef em en elapsed r h
    obtain ⟨hwd, hfh, hmo, hneo, hmeta, hsucc⟩ := buildResults_ok h
    refine ⟨?_, ?_⟩
    · intro d hd
      obtain ⟨w, hw, hmk⟩ := hwd d hd
      rw [(mkWdDict_ok hmk).1]
      exact ⟨clamp_nonneg _, clamp_le_one _⟩
    · rw [hmeta]
      cases hpm : raw.processing_metadata with
      | some m =>
          show 0 ≤ clamp m.overall_confidence ∧ clamp m.overall_confidence ≤ 1
          exact ⟨clamp_nonneg _, clamp_le_one _⟩
      | none =>
          show (0 : ℚ) ≤ 0 ∧ (0 : ℚ) ≤ 1
          norm_num
  · intro w d h
    rw [(mkWdDictM_ok h).1]
    exact ⟨clamp_nonneg _, clamp_le_one _⟩
  · intro f d h
    rw [mkFhDictM_ok h]
    exact ⟨clamp_nonneg _, clamp_le_one _⟩
  · intro m d h
    rw [mkMorphDictM_ok h]
    exact ⟨clamp_nonneg _, clamp_le_one _⟩

/-- Claim C2 witness: for a concrete raw result the stored WD confidence
and overall confidence are within range. -/
theorem C2_witness :
    ∃ r, buildResults rawC2w ("STANDARD") true true true true 0 = Except.ok r
      ∧ 0 ≤ r.metadata.overall_confidence ∧ r.metadata.overall_confidence ≤ 1 := by
  refine ⟨_, rfl, ?_⟩
  exact (C2_theorem.1 rawC2w ("STANDARD") true true true true 0 _ rfl).2

/-- Claim C10: in every WD record the normalizer produces — on the
single-image, multi-angle and wd-only paths — the single `units` tag is cm
exactly when the raw `wd_value_cm` attribute is a nonzero number, while each
width field falls back to pixels independently: the concrete records carry
`units = cm` together with the pixel bizygomatic width, because their
bizygomatic cm channel is the zero sentinel. -/
theorem C10_theorem :
    (∀ (w : WDRaw) (d : WdDict), mkWdDict w = Except.ok d →
        (d.units = "cm" ↔ ∃ c, w.wd_value_cm = Attr.num c ∧ c ≠ 0))
    ∧ (∀ (w : WDRaw) (d : WdDictM), mkWdDictM w = Except.ok d →
        (d.units = "cm" ↔ ∃ c, w.wd_value_cm = Attr.num c ∧ c ≠ 0))
    ∧ (∀ (w : WDRaw) (d : WdOnlyDict), mkWdOnlyDict w = Except.ok d →
        (d.units = "cm" ↔ ∃ c, w.wd_value_cm = Attr.num c ∧ c ≠ 0))
    ∧ (∃ d, mkWdDict wdC10 = Except.ok d ∧ d.units = "cm"
        ∧ d.bizygomatic_width = wdC10.bizygomatic_width
        ∧ wdC10.bizygomatic_width_cm = Attr.num 0)
    ∧ (∃ d, mkWdDictM wdC10 = Except.ok d ∧ d.units = "cm"
        ∧ d.bizygomatic_width = wdC10.bizygomatic_width)
    ∧ (∃ d, mkWdOnlyDict wdC10 = Except.ok d ∧ d.units = "cm"
        ∧ d.bizygomatic_width = wdC10.bizygomatic_width) := by
  refine ⟨?_, ?_, ?_, ⟨_, rfl, rfl, rfl, rfl⟩, ⟨_, rfl, rfl, rfl⟩, ⟨_, rfl, rfl, rfl⟩⟩
  · intro w d h
    rw [(mkWdDict_ok h).2.1]
    exact unitTag_eq_cm_iff (mkWdDict_ok h).2.2.1
  · intro w d h
    rw [(mkWdDictM_ok h).2.1]
    exact unitTag_eq_cm_iff (mkWdDictM_ok h).2.2.1
  · intro w d h
    rw [(mkWdOnlyDict_ok h).2.1]
    exact unitTag_eq_cm_iff (mkWdOnlyDict_ok h).2.2.1

/-- Claim C10 witness: the units rule applied on all three paths at the
concrete calibrated input. -/
theorem C10_witness :
    (∃ d, mkWdDict wdC10 = Except.ok d
      ∧ (d.units = "cm" ↔ ∃ c, wdC10.wd_value_cm = Attr.num c ∧ c ≠ 0))
    ∧ (∃ d, mkWdDictM wdC10 = Except.ok d
      ∧ (d.units = "cm" ↔ ∃ c, wdC10.wd_value_cm = Attr.num c ∧ c ≠ 0))
    ∧ (∃ d, mkWdOnlyDict wdC10 = Except.ok d
      ∧ (d.units = "cm" ↔ ∃ c, wdC10.wd_value_cm = Attr.num c ∧ c ≠ 0)) := by
  refine ⟨⟨_, rfl, C10_theorem.1 wdC10 _ rfl⟩,
    ⟨_, rfl, C10_theorem.2.1 wdC10 _ rfl⟩,
    ⟨_, rfl, C10_theorem.2.2.1 wdC10 _ rfl⟩⟩

/-- Claim C7: in a successful multi-angle combination with distinct angle
names, a null angle is recorded as Failed and a present one as Success,
the overall success flag stays true, and when no profile angle carries a
result the forehead sub-record is absent. -/
theorem C7_theorem :
    ∀ (raw : MultiRaw) (sid : String) (elapsed : ℚ) (r : MultiResults),
      buildMulti raw sid elapsed = Except.ok r →
      (raw.angle_results.map Prod.fst).Nodup →
      r.success = true
      ∧ r.angle_results = raw.angle_results.map (fun p => (p.1, statusOf p.2))
      ∧ ((∀ o, ("profile", o) ∈ raw.angle_results → o = none) → r.forehead_result = none) := by
  intro raw sid elapsed r h hnd
  obtain ⟨hs, _, _, hangles, hfh⟩ := buildMulti_ok h
  exact ⟨hs, hangles hnd, hfh⟩

/-- Claim C7 witness: scenario C — frontal present, profile null — yields
statuses Success / Failed, success true and no forehead sub-record. -/
theorem C7_witness :
    ∃ r, buildMulti mrC7 ("subject_001") 0 = Except.ok r
      ∧ r.success = true
      ∧ r.angle_results = [("frontal", "Success"), ("profile", "Failed")]
      ∧ r.forehead_result = none := by
  refine ⟨_, rfl, ?_⟩
  have hnd : (mrC7.angle_results.map Prod.fst).Nodup := by
    show (["frontal", "profile"] : List String).Nodup
    decide
  have h := C7_theorem mrC7 ("subject_001") 0 _ rfl hnd
  refine ⟨h.1, h.2.1.trans (by rfl), h.2.2 ?_⟩
  intro o ho
  rcases List.mem_cons.mp ho with hh | hh
  · exfalso
    have hfst : "profile" = "frontal" := congrArg Prod.fst hh
    exact absurd hfst (by decide)
  · rcases List.mem_cons.mp hh with hh2 | hh2
    · exact congrArg Prod.snd hh2
    · exact absurd hh2 (by simp)

/-- Claim C4: with a valid analysis mode, a null raw result yields exactly
the two-key record success = false, error = "No face detected or image
unreadable" — in particular no traceback key. -/
theorem C4_theorem :
    ∀ (mode : String) (ew ef em en : Bool) (elapsed : ℚ),
      validMode mode = true →
      (analyze_single_image mode (SdkAnalyze.returns none) ew ef em en elapsed).1
        = SingleOutput.noFace
      ∧ outputKeys (analyze_single_image mode (SdkAnalyze.returns none) ew ef em en elapsed).1
          = ["success", "error"] := by
  intro mode ew ef em en elapsed h
  have hout : (analyze_single_image mode (SdkAnalyze.returns none) ew ef em en elapsed).1
      = SingleOutput.noFace := by
    simp only [analyze_single_image, singleBody, finallyShutdown, h, if_true]
  refine ⟨hout, ?_⟩
  rw [hout]
  rfl

/-- Claim C4 witness: the null-raw return at the STANDARD mode. -/
theorem C4_witness :
    (analyze_single_image ("STANDARD") (SdkAnalyze.returns none) true true true true 0).1
      = SingleOutput.noFace :=
  (C4_theorem ("STANDARD") true true true true 0 rfl).1

/-- Claim C5: both public operations are total over every modelled SDK
behaviour — the returned value is always the no-face record, a populated
record, or the caught-exception record with prefixed message and
traceback. -/
theorem C5_theorem :
    ∀ (mode : String) (sdk : SdkAnalyze) (ew ef em en : Bool) (elapsed : ℚ)
      (sid : String) (msdk : MultiSdk),
      ((analyze_single_image mode sdk ew ef em en elapsed).1 = SingleOutput.noFace
        ∨ (∃ r, (analyze_single_image mode sdk ew ef em en elapsed).1 = SingleOutput.ok r)
        ∨ (∃ m, (analyze_single_image mode sdk ew ef em en elapsed).1
            = SingleOutput.err ("Error during analysis: " ++ m) tracebackText))
      ∧ ((∃ r, (analyze_multi_angle sid msdk elapsed).1 = MultiOutput.ok r)
        ∨ (∃ m, (analyze_multi_angle sid msdk elapsed).1
            = MultiOutput.err ("Error during multi-angle analysis: " ++ m) tracebackText)) := by
  intro mode sdk ew ef em en elapsed sid msdk
  constructor
  · by_cases hm : validMode mode
    · rcases sdk with m | raw
      · refine Or.inr (Or.inr ⟨m, ?_⟩)
        simp only [analyze_single_image, singleBody, finallyShutdown, hm, if_true]
      · rcases raw with _ | rr
        · refine Or.inl ?_
          simp only [analyze_single_image, singleBody, finallyShutdown, hm, if_true]
        · rcases hb : buildResults rr mode ew ef em en elapsed with m | r
          · refine Or.inr (Or.inr ⟨m, ?_⟩)
            simp only [analyze_single_image, singleBody, finallyShutdown, hm, hb, if_true]
          · refine Or.inr (Or.inl ⟨r, ?_⟩)
            simp only [analyze_single_image, singleBody, finallyShutdown, hm, hb, if_true]
    · refine Or.inr (Or.inr ⟨keyErrorMsg mode, ?_⟩)
      simp only [analyze_single_image, singleBody, finallyShutdown, hm, if_false,
        Bool.false_eq_true]
  · rcases msdk with m | raw
    · refine Or.inr ⟨m, ?_⟩
      simp only [analyze_multi_angle, multiBody, finallyShutdownM, if_true]
    · rcases hb : buildMulti raw sid elapsed with m | r
      · refine Or.inr ⟨m, ?_⟩
        simp only [analyze_multi_angle, multiBody, finallyShutdownM, hb, if_true]
      · refine Or.inl ⟨r, ?_⟩
        simp only [analyze_multi_angle, multiBody, finallyShutdownM, hb, if_true]

/-- Claim C6: on every exit path of both operations the handle is closed on
return, and whenever the analyzer was acquired during the call the last
event of the call is its shutdown. -/
theorem C6_theorem :
    ∀ (mode : String) (sdk : SdkAnalyze) (ew ef em en : Bool) (elapsed : ℚ)
      (sid : String) (msdk : MultiSdk),
      ((analyze_single_image mode sdk ew ef em en elapsed).2.handleOpen = false
        ∧ (Ev.acquire ∈ (analyze_single_image mode sdk ew ef em en elapsed).2.events →
            (analyze_single_image mode sdk ew ef em en elapsed).2.events.getLast?
              = some Ev.shutdown))
      ∧ ((analyze_multi_angle sid msdk elapsed).2.handleOpen = false
        ∧ (Ev.acquire ∈ (analyze_multi_angle sid msdk elapsed).2.events →
            (analyze_multi_angle sid msdk elapsed).2.events.getLast? = some Ev.shutdown)) := by
  intro mode sdk ew ef em en elapsed sid msdk
  constructor
  · by_cases hm : validMode mode
    · rcases sdk with m | raw
      · constructor
        · simp only [analyze_single_image, singleBody, finallyShutdown, hm, if_true]
        · intro _
          simp only [analyze_single_image, singleBody, finallyShutdown, hm, if_true]
          rfl
      · rcases raw with _ | rr
        · constructor
          · simp only [analyze_single_image, singleBody, finallyShutdown, hm, if_true]
          · intro _
            simp only [analyze_single_image, singleBody, finallyShutdown, hm, if_true]
            rfl
        · rcases hb : buildResults rr mode ew ef em en elapsed with m | r
          · constructor
            · simp only [analyze_single_image, singleBody, finallyShutdown, hm, hb, if_true]
            · intro _
              simp only [analyze_single_image, singleBody, finallyShutdown, hm, hb, if_true]
              rfl
          · constructor
            · simp only [analyze_single_image, singleBody, finallyShutdown, hm, hb, if_true]
            · intro _
              simp only [analyze_single_image, singleBody, finallyShutdown, hm, hb, if_true]
              rfl
    · constructor
      · simp only [analyze_single_image, singleBody, finallyShutdown, hm, if_false,
          Bool.false_eq_true]
      · intro hmem
        exfalso
        revert hmem
        simp only [analyze_single_image, singleBody, finallyShutdown, hm, if_false,
          Bool.false_eq_true]
        intro hmem
        exact absurd hmem (by simp)
  · rcases msdk with m | raw
    · constructor
      · simp only [analyze_multi_angle, multiBody, finallyShutdownM, if_true]
      · intro _
        simp only [analyze_multi_angle, multiBody, finallyShutdownM, if_true]
        rfl
    · rcases hb : buildMulti raw sid elapsed with m | r
      · constructor
        · simp only [analyze_multi_angle, multiBody, finallyShutdownM, hb, if_true]
        · intro _
          simp only [analyze_multi_angle, multiBody, finallyShutdownM, hb, if_true]
          rfl
      · constructor
        · simp only [analyze_multi_angle, multiBody, finallyShutdownM, hb, if_true]
        · intro _
          simp only [analyze_multi_angle, multiBody, finallyShutdownM, hb, if_true]
          rfl

/-- Claim C6 witness: the shutdown ordering at a concrete null-raw call. -/
theorem C6_witness :
    (analyze_single_image ("STANDARD") (SdkAnalyze.returns none)
        true true true true 0).2.events.getLast? = some Ev.shutdown := by
  refine (C6_theorem ("STANDARD") (SdkAnalyze.returns none) true true true true 0
    ("subject_001") (MultiSdk.raises ("boom"))).1.2 ?_
  show Ev.acquire ∈ [Ev.acquire, Ev.analyze, Ev.shutdown]
  exact List.mem_cons_self _ _
